import Mathlib

/-
Verification of the frame-simulation core of the Ghost Busters mini-arcade
game (src/src/main.cpp).  The C++ floats are modelled as exact rationals (ℚ),
the C++ ints as ℕ/ℤ.  Sources of randomness (rand()-derived draws) and the
transcendental functions sin/cos, which the code only uses to produce bounded
offsets, are supplied to each step as explicit oracle inputs; theorems that
need them constrain the oracles by the bounds the real functions satisfy
(|sin| ≤ 1).  Every definition mirrors the corresponding source function or
code block; the main loop body becomes the state-transition function
`frameStepC`.
-/

set_option maxRecDepth 10000

namespace GhostBusters

/-! ## Constants (src/src/main.cpp lines 69-95) -/

def PLAYER_W : ℚ := 0.18
def PLAYER_H : ℚ := 0.06
def PLAYER_Y : ℚ := -0.85

def BULLET_W : ℚ := 0.02
def BULLET_H : ℚ := 0.06
def BULLET_SPEED : ℚ := 2.6
def SHOOT_COOLDOWN : ℚ := 0.22

def MAX_GHOSTS : ℕ := 8
def GHOST_W : ℚ := 0.10
def GHOST_H : ℚ := 0.10
def GHOST_SPEED_MIN : ℚ := 0.35
def GHOST_SPEED_MAX : ℚ := 0.75
def GHOST_DROP : ℚ := 0.04

def STAR_COUNT : ℕ := 120

def playerSpeed : ℚ := 1.7

/-! ## Entity records (lines 111-134) -/

structure Ghost where
  x : ℚ
  y : ℚ
  vx : ℚ
  alive : Bool
  phase : ℚ
  deriving Repr, DecidableEq

structure Particle where
  posx : ℚ
  posy : ℚ
  velx : ℚ
  vely : ℚ
  life : ℚ
  size : ℚ
  deriving Repr, DecidableEq

structure Star where
  posx : ℚ
  posy : ℚ
  speed : ℚ
  size : ℚ
  alpha : ℚ
  deriving Repr, DecidableEq

/-- The mutable globals of the program (lines 94-109, 117, 125, 134). -/
structure GameState where
  playerX : ℚ
  bulletActive : Bool
  bulletX : ℚ
  bulletY : ℚ
  shootTimer : ℚ
  score : ℕ
  lives : ℤ
  gameOver : Bool
  shakeTimer : ℚ
  shakeStrength : ℚ
  ghosts : List Ghost
  particles : List Particle
  stars : List Star
  deriving Repr, DecidableEq

/-- Global initializers (lines 94-109): the state before `resetGame` runs. -/
def initialState : GameState :=
  { playerX := 0, bulletActive := false, bulletX := 0, bulletY := -1.5,
    shootTimer := 0, score := 0, lives := 3, gameOver := false,
    shakeTimer := 0, shakeStrength := 0, ghosts := [], particles := [],
    stars := [] }

/-! ## RNG / math utilities (lines 141-151) -/

/-- AABB overlap test, center/extent style (lines 141-146). -/
def aabbHit (ax ay aw ah bx bY bw bh : ℚ) : Bool :=
  decide (|ax - bx| * 2 < aw + bw) && decide (|ay - bY| * 2 < ah + bh)

/-- Uniform sample in [a,b): `a + (b-a) * (rand() % 10000) / 10000` (lines 149-151),
with the raw `rand()` draw supplied as the oracle input `r`. -/
def frand (a b : ℚ) (r : ℕ) : ℚ :=
  a + (b - a) * ((r % 10000 : ℕ) : ℚ) / 10000

/-! ## Wave spawner (lines 153-166) -/

/-- Oracle inputs for one ghost spawned by `spawnWave`: the five `rand()` draws. -/
structure GhostRand where
  rx : ℕ
  ry : ℕ
  rsp : ℕ
  rdir : ℕ
  rphase : ℕ
  deriving Repr, DecidableEq

def mkGhost (speedScale : ℚ) (r : GhostRand) : Ghost :=
  let sp := frand GHOST_SPEED_MIN GHOST_SPEED_MAX r.rsp * speedScale
  { x := frand (-0.85) 0.85 r.rx
    y := frand 0.20 0.90 r.ry
    vx := if r.rdir % 2 = 0 then -sp else sp
    alive := true
    phase := frand 0 6.28318 r.rphase }

/-- `spawnWave(n, speedScale)`: replaces the ghost store with `min n MAX_GHOSTS`
fresh ghosts (lines 153-166). -/
def spawnWave (n : ℕ) (speedScale : ℚ) (rnd : ℕ → GhostRand) : List Ghost :=
  (List.range (min n MAX_GHOSTS)).map fun i => mkGhost speedScale (rnd i)

/-! ## Stars (lines 168-180, 401-410) -/

/-- Oracle inputs for one star created by `initStars`. -/
structure StarInit where
  rx : ℕ
  ry : ℕ
  rlayer : ℕ
  deriving Repr, DecidableEq

def mkStar (r : StarInit) : Star :=
  let layer := frand 0 1 r.rlayer
  { posx := frand (-1) 1 r.rx
    posy := frand (-1) 1 r.ry
    speed := 0.05 + layer * 0.25
    size := 0.004 + layer * 0.01
    alpha := 0.5 + layer * 0.5 }

def initStars (rs : ℕ → StarInit) : List Star :=
  (List.range STAR_COUNT).map fun i => mkStar (rs i)

/-- Oracle inputs for the recycle branch of the star update (lines 404-409). -/
structure StarRand where
  rx : ℕ
  ralpha : ℕ
  rsize : ℕ
  deriving Repr, DecidableEq

def stepStar (dt : ℚ) (r : StarRand) (st : Star) : Star :=
  let y := st.posy - st.speed * dt
  if y < -1.05 then
    { st with posx := frand (-1) 1 r.rx, posy := 1.05,
              alpha := 0.5 + frand 0 0.5 r.ralpha,
              size := 0.004 + frand 0 0.01 r.rsize }
  else { st with posy := y }

/-! ## Particles (lines 119-124, 366-377, 392-399) -/

/-- Oracle inputs for one explosion particle (lines 368-377): the values of
`cos ang` / `sin ang` for the random angle, and the raw draws for speed and
size. -/
structure PartRand where
  cosA : ℚ
  sinA : ℚ
  rspd : ℕ
  rsize : ℕ
  deriving Repr, DecidableEq

def mkParticle (x y : ℚ) (r : PartRand) : Particle :=
  let spd := frand 0.25 1 r.rspd
  { posx := x, posy := y, velx := r.cosA * spd, vely := r.sinA * spd,
    life := 1, size := frand 0.012 0.028 r.rsize }

/-- Per-frame particle step (lines 393-397): life decays, position integrates
the old velocity, then drag is applied to the velocity. -/
def stepParticle (dt : ℚ) (q : Particle) : Particle :=
  { q with life := q.life - dt * 1.4,
           posx := q.posx + q.velx * dt,
           posy := q.posy + q.vely * dt,
           velx := q.velx * (1 - 0.9 * dt),
           vely := q.vely * (1 - 0.9 * dt) }

def particleUpdate (dt : ℚ) (s : GameState) : GameState :=
  { s with particles :=
      (s.particles.map (stepParticle dt)).filter fun q => !decide (q.life ≤ 0) }

/-! ## Reset (lines 182-192) -/

def resetGame (rs : ℕ → StarInit) (rw : ℕ → GhostRand) (s : GameState) : GameState :=
  { s with score := 0, lives := 3, gameOver := false, playerX := 0,
           bulletActive := false, shootTimer := 0, particles := [],
           stars := initStars rs, ghosts := spawnWave 6 1 rw }

/-! ## Per-frame oracle inputs -/

/-- Everything one loop iteration reads from outside the game state: elapsed
time, key states, and the random / transcendental draws consumed by the
various update branches.  `bobs i` is the value of `sin(timeNow*2 + phase)`
for the ghost at index `i` (line 328); `prand i j` feeds particle `j` of a
kill of ghost `i`; `waveRand` feeds a wave spawned by the clear check;
`resetStars`/`resetWave` feed a restart-triggered `resetGame`. -/
structure FrameEnv where
  dt : ℚ
  keyLeft : Bool
  keyRight : Bool
  keyFire : Bool
  keyRestart : Bool
  bobs : ℕ → ℚ
  prand : ℕ → ℕ → PartRand
  starRand : ℕ → StarRand
  waveRand : ℕ → GhostRand
  resetStars : ℕ → StarInit
  resetWave : ℕ → GhostRand

/-! ## Input processing (lines 530-554) -/

def processInput (env : FrameEnv) (s : GameState) : GameState :=
  let mv := playerSpeed * env.dt
  let x0 := if env.keyLeft then s.playerX - mv else s.playerX
  let x1 := if env.keyRight then x0 + mv else x0
  let x2 := if x1 + PLAYER_W * 0.5 > 1 then 1 - PLAYER_W * 0.5 else x1
  let x3 := if x2 - PLAYER_W * 0.5 < -1 then -1 + PLAYER_W * 0.5 else x2
  let s1 := { s with playerX := x3 }
  if (!s1.gameOver && env.keyFire) &&
     (!s1.bulletActive && decide (SHOOT_COOLDOWN ≤ s1.shootTimer)) then
    { s1 with bulletActive := true, bulletX := s1.playerX,
              bulletY := PLAYER_Y + PLAYER_H * 0.5 + BULLET_H * 0.6,
              shootTimer := 0 }
  else s1

/-! ## Bullet update (lines 313-316) -/

def bulletUpdate (dt : ℚ) (s : GameState) : GameState :=
  if s.bulletActive then
    let y := s.bulletY + BULLET_SPEED * dt
    if y > 1.1 then { s with bulletY := y, bulletActive := false }
    else { s with bulletY := y }
  else s

/-! ## Ghost pass (lines 318-383) -/

/-- Horizontal drift plus bob, before the bounce test (lines 325-329).
`sinv` is the oracle for `sin(timeNow*2 + phase)`. -/
def bobbedX (dt sinv : ℚ) (g : Ghost) : ℚ :=
  g.x + g.vx * dt + sinv * 0.12 * dt

/-- Movement, wall bounce and drop for one living ghost (lines 325-339). -/
def moveGhost (dt sinv : ℚ) (g : Ghost) : Ghost :=
  let x := bobbedX dt sinv g
  if x + GHOST_W * 0.5 > 1 then
    { g with x := 1 - GHOST_W * 0.5, vx := -|g.vx|, y := g.y - GHOST_DROP }
  else if x - GHOST_W * 0.5 < -1 then
    { g with x := -1 + GHOST_W * 0.5, vx := |g.vx|, y := g.y - GHOST_DROP }
  else { g with x := x }

/-- Shake assignment on life loss (lines 348-349). -/
def lifeLossShake (s : GameState) : GameState :=
  { s with shakeTimer := 0.25, shakeStrength := 0.025 }

/-- Shake assignment on a kill (lines 380-381). -/
def killShake (s : GameState) : GameState :=
  { s with shakeTimer := max s.shakeTimer 0.15,
           shakeStrength := max s.shakeStrength 0.015 }

/-- Fold state of the ghost pass: the game state, the `aliveCount` local, and
an instrumentation counter of baseline crossings in this pass (the counter
changes nothing the program computes; it names the "life lost" events). -/
structure PassST where
  st : GameState
  ac : ℕ
  cr : ℕ

/-- Baseline check for one moved ghost (lines 342-350). -/
def baselinePhase (g : Ghost) (p : PassST) : Ghost × PassST :=
  if g.y - GHOST_H * 0.5 ≤ PLAYER_Y + PLAYER_H * 0.5 then
    ({ g with alive := false },
     { p with st := lifeLossShake
                { p.st with lives := p.st.lives - 1,
                            gameOver := if p.st.lives - 1 ≤ 0 then true
                                        else p.st.gameOver },
              cr := p.cr + 1 })
  else (g, p)

/-- Bullet-collision check for one moved ghost (lines 352-382).  Note the
condition tests only `bulletActive` and the overlap; it does not re-test the
ghost's `alive` flag, which the baseline check may just have cleared. -/
def killPhase (prand : ℕ → PartRand) (i : ℕ) (g : Ghost) (s : GameState) : GameState :=
  if s.bulletActive && aabbHit s.bulletX s.bulletY BULLET_W BULLET_H g.x g.y GHOST_W GHOST_H then
    killShake
      { s with ghosts := (s.ghosts.set i { g with alive := false }).map
                           (fun gg => { gg with vx := gg.vx * 1.035 }),
               bulletActive := false,
               score := s.score + 10,
               particles := s.particles ++
                 (List.range 24).map fun j => mkParticle g.x g.y (prand j) }
  else s

/-- One iteration of the `for (auto &g : ghosts)` loop (lines 320-383) for the
ghost at index `i`. -/
def ghostStep (dt bob : ℚ) (prand : ℕ → PartRand) (i : ℕ) (p : PassST) : PassST :=
  match p.st.ghosts[i]? with
  | none => p
  | some g0 =>
    if g0.alive then
      let p1 : PassST := { p with ac := p.ac + 1 }
      let g1 := moveGhost dt bob g0
      let gp := baselinePhase g1 p1
      let s2 := { gp.2.st with ghosts := gp.2.st.ghosts.set i gp.1 }
      { gp.2 with st := killPhase prand i gp.1 s2 }
    else p

/-- The whole ghost loop: fold `ghostStep` over the indices of the store. -/
def ghostPass (env : FrameEnv) (s : GameState) : PassST :=
  (List.range s.ghosts.length).foldl
    (fun p i => ghostStep env.dt (env.bobs i) (env.prand i) i p)
    { st := s, ac := 0, cr := 0 }

/-! ## Wave-clear check (lines 385-390) -/

def nextWaveCount (score : ℕ) : ℕ := min MAX_GHOSTS (4 + score / 20)

def nextWaveScale (score : ℕ) : ℚ := 1 + (score : ℚ) / 100

def waveCheck (env : FrameEnv) (p : PassST) : GameState :=
  if p.st.gameOver = false ∧ p.ac = 0 then
    { p.st with ghosts := spawnWave (nextWaveCount p.st.score)
                            (nextWaveScale p.st.score) env.waveRand }
  else p.st

/-! ## Star update (lines 401-410) -/

def starUpdate (env : FrameEnv) (s : GameState) : GameState :=
  { s with stars := s.stars.mapIdx fun i st => stepStar env.dt (env.starRand i) st }

/-! ## Shake decay, performed during rendering (lines 432-439) -/

def shakeDecay (dt : ℚ) (s : GameState) : GameState :=
  if s.shakeTimer > 0 then
    let t := s.shakeTimer - dt
    { s with shakeTimer := if t < 0 then 0 else t }
  else s

/-! ## One main-loop iteration (lines 295-519) -/

/-- One iteration of the main loop, paired with the running count of baseline
crossings ("ghost reached the player line" events).  The `GameState` component
is exactly what the program computes; the counter is instrumentation. -/
def frameStepC (env : FrameEnv) (sc : GameState × ℕ) : GameState × ℕ :=
  let s0 := { sc.1 with shootTimer := sc.1.shootTimer + env.dt }
  let s1 := processInput env s0
  let s2 := if env.keyRestart && s1.gameOver then
              resetGame env.resetStars env.resetWave s1
            else s1
  let sc3 : GameState × ℕ :=
    if s2.gameOver then (s2, sc.2)
    else
      let sB := bulletUpdate env.dt s2
      let p := ghostPass env sB
      let sW := waveCheck env p
      let sP := particleUpdate env.dt sW
      let sS := starUpdate env sP
      (sS, sc.2 + p.cr)
  (shakeDecay env.dt sc3.1, sc3.2)

/-- One iteration of the main loop, state only. -/
def frameStep (env : FrameEnv) (s : GameState) : GameState :=
  (frameStepC env (s, 0)).1

/-- Run a whole trace of frames, accumulating the crossing count. -/
def runC (envs : List FrameEnv) (sc : GameState × ℕ) : GameState × ℕ :=
  envs.foldl (fun sc e => frameStepC e sc) sc

/-- The states the program can be in after `resetGame` (called once at
startup, line 292) and any number of loop iterations. -/
inductive Reachable : GameState → Prop where
  | start : ∀ (rs : ℕ → StarInit) (rw : ℕ → GhostRand),
      Reachable (resetGame rs rw initialState)
  | frame : ∀ (env : FrameEnv) (s : GameState), 0 ≤ env.dt →
      Reachable s → Reachable (frameStep env s)


/-! ## Concrete fixtures used by witnesses and counterexamples -/

/-- A fixed spawn-oracle value. -/
def grand0 : GhostRand := ⟨0, 0, 0, 0, 0⟩

/-- A fixed particle-oracle value (angle 0: cos 0 = 1, sin 0 = 0). -/
def prand0 : PartRand := ⟨1, 0, 0, 0⟩

def srand0 : StarRand := ⟨0, 0, 0⟩

def sinit0 : StarInit := ⟨0, 0, 0⟩

/-- Constant versions of the oracle functions, used by concrete witnesses. -/
def sinit0f : ℕ → StarInit := fun _ => sinit0

def grand0f : ℕ → GhostRand := fun _ => grand0

/-- A frame with no keys pressed, dt = 0 and constant oracles. -/
def env0 : FrameEnv :=
  { dt := 0, keyLeft := false, keyRight := false, keyFire := false,
    keyRestart := false, bobs := fun _ => 0, prand := fun _ _ => prand0,
    starRand := fun _ => srand0, waveRand := fun _ => grand0,
    resetStars := fun _ => sinit0, resetWave := fun _ => grand0 }

/-- A ghost that has just reached the player's row, directly under the bullet. -/
def c1ghost : Ghost := { x := 0, y := -0.78, vx := 0.4, alive := true, phase := 0 }

/-- State in which ghost 0 satisfies the baseline condition and the active
bullet overlaps it in the same frame. -/
def c1state : GameState :=
  { initialState with bulletActive := true, bulletX := 0, bulletY := -0.78,
                      ghosts := [c1ghost] }

/-- PassST fixture for the amended-C1 witness. -/
def c1pass : PassST := { st := c1state, ac := 0, cr := 0 }

/-- A living ghost in mid-field, directly on the bullet. -/
def c2ghost : Ghost := { x := 0, y := 0, vx := 0.4, alive := true, phase := 0 }

def c2state : GameState :=
  { initialState with bulletActive := true, bulletX := 0, bulletY := 0,
                      ghosts := [c2ghost] }

def c2pass : PassST := { st := c2state, ac := 0, cr := 0 }

/-- A dead ghost left over from a cleared wave. -/
def c3ghost : Ghost := { x := 0, y := 0, vx := 0.4, alive := false, phase := 0 }

/-- State whose only ghost is dead: the wave is cleared. -/
def c3state : GameState := { initialState with ghosts := [c3ghost] }

/-- A ghost about to cross the right bound. -/
def g5w : Ghost := { x := 0.9, y := 0.5, vx := 0.4, alive := true, phase := 0 }

/-! ## Basic lemmas: which fields each update leaves untouched -/

@[simp] theorem shakeDecay_playerX (dt : ℚ) (s : GameState) :
    (shakeDecay dt s).playerX = s.playerX := by
  unfold shakeDecay; split <;> rfl

@[simp] theorem shakeDecay_bulletActive (dt : ℚ) (s : GameState) :
    (shakeDecay dt s).bulletActive = s.bulletActive := by
  unfold shakeDecay; split <;> rfl

@[simp] theorem shakeDecay_bulletX (dt : ℚ) (s : GameState) :
    (shakeDecay dt s).bulletX = s.bulletX := by
  unfold shakeDecay; split <;> rfl

@[simp] theorem shakeDecay_bulletY (dt : ℚ) (s : GameState) :
    (shakeDecay dt s).bulletY = s.bulletY := by
  unfold shakeDecay; split <;> rfl

@[simp] theorem shakeDecay_shootTimer (dt : ℚ) (s : GameState) :
    (shakeDecay dt s).shootTimer = s.shootTimer := by
  unfold shakeDecay; split <;> rfl

@[simp] theorem shakeDecay_score (dt : ℚ) (s : GameState) :
    (shakeDecay dt s).score = s.score := by
  unfold shakeDecay; split <;> rfl

@[simp] theorem shakeDecay_lives (dt : ℚ) (s : GameState) :
    (shakeDecay dt s).lives = s.lives := by
  unfold shakeDecay; split <;> rfl

@[simp] theorem shakeDecay_gameOver (dt : ℚ) (s : GameState) :
    (shakeDecay dt s).gameOver = s.gameOver := by
  unfold shakeDecay; split <;> rfl

@[simp] theorem shakeDecay_shakeStrength (dt : ℚ) (s : GameState) :
    (shakeDecay dt s).shakeStrength = s.shakeStrength := by
  unfold shakeDecay; split <;> rfl

@[simp] theorem shakeDecay_ghosts (dt : ℚ) (s : GameState) :
    (shakeDecay dt s).ghosts = s.ghosts := by
  unfold shakeDecay; split <;> rfl

@[simp] theorem shakeDecay_particles (dt : ℚ) (s : GameState) :
    (shakeDecay dt s).particles = s.particles := by
  unfold shakeDecay; split <;> rfl

@[simp] theorem shakeDecay_stars (dt : ℚ) (s : GameState) :
    (shakeDecay dt s).stars = s.stars := by
  unfold shakeDecay; split <;> rfl

@[simp] theorem bulletUpdate_playerX (dt : ℚ) (s : GameState) :
    (bulletUpdate dt s).playerX = s.playerX := by
  unfold bulletUpdate
  split
  · dsimp only
    split <;> rfl
  · rfl

@[simp] theorem bulletUpdate_bulletX (dt : ℚ) (s : GameState) :
    (bulletUpdate dt s).bulletX = s.bulletX := by
  unfold bulletUpdate
  split
  · dsimp only
    split <;> rfl
  · rfl

@[simp] theorem bulletUpdate_shootTimer (dt : ℚ) (s : GameState) :
    (bulletUpdate dt s).shootTimer = s.shootTimer := by
  unfold bulletUpdate
  split
  · dsimp only
    split <;> rfl
  · rfl

@[simp] theorem bulletUpdate_score (dt : ℚ) (s : GameState) :
    (bulletUpdate dt s).score = s.score := by
  unfold bulletUpdate
  split
  · dsimp only
    split <;> rfl
  · rfl

@[simp] theorem bulletUpdate_lives (dt : ℚ) (s : GameState) :
    (bulletUpdate dt s).lives = s.lives := by
  unfold bulletUpdate
  split
  · dsimp only
    split <;> rfl
  · rfl

@[simp] theorem bulletUpdate_gameOver (dt : ℚ) (s : GameState) :
    (bulletUpdate dt s).gameOver = s.gameOver := by
  unfold bulletUpdate
  split
  · dsimp only
    split <;> rfl
  · rfl

@[simp] theorem bulletUpdate_shakeTimer (dt : ℚ) (s : GameState) :
    (bulletUpdate dt s).shakeTimer = s.shakeTimer := by
  unfold bulletUpdate
  split
  · dsimp only
    split <;> rfl
  · rfl

@[simp] theorem bulletUpdate_shakeStrength (dt : ℚ) (s : GameState) :
    (bulletUpdate dt s).shakeStrength = s.shakeStrength := by
  unfold bulletUpdate
  split
  · dsimp only
    split <;> rfl
  · rfl

@[simp] theorem bulletUpdate_ghosts (dt : ℚ) (s : GameState) :
    (bulletUpdate dt s).ghosts = s.ghosts := by
  unfold bulletUpdate
  split
  · dsimp only
    split <;> rfl
  · rfl

@[simp] theorem bulletUpdate_particles (dt : ℚ) (s : GameState) :
    (bulletUpdate dt s).particles = s.particles := by
  unfold bulletUpdate
  split
  · dsimp only
    split <;> rfl
  · rfl

@[simp] theorem bulletUpdate_stars (dt : ℚ) (s : GameState) :
    (bulletUpdate dt s).stars = s.stars := by
  unfold bulletUpdate
  split
  · dsimp only
    split <;> rfl
  · rfl

@[simp] theorem particleUpdate_playerX (dt : ℚ) (s : GameState) :
    (particleUpdate dt s).playerX = s.playerX := by
  rfl

@[simp] theorem particleUpdate_bulletActive (dt : ℚ) (s : GameState) :
    (particleUpdate dt s).bulletActive = s.bulletActive := by
  rfl

@[simp] theorem particleUpdate_bulletX (dt : ℚ) (s : GameState) :
    (particleUpdate dt s).bulletX = s.bulletX := by
  rfl

@[simp] theorem particleUpdate_bulletY (dt : ℚ) (s : GameState) :
    (particleUpdate dt s).bulletY = s.bulletY := by
  rfl

@[simp] theorem particleUpdate_shootTimer (dt : ℚ) (s : GameState) :
    (particleUpdate dt s).shootTimer = s.shootTimer := by
  rfl

@[simp] theorem particleUpdate_score (dt : ℚ) (s : GameState) :
    (particleUpdate dt s).score = s.score := by
  rfl

@[simp] theorem particleUpdate_lives (dt : ℚ) (s : GameState) :
    (particleUpdate dt s).lives = s.lives := by
  rfl

@[simp] theorem particleUpdate_gameOver (dt : ℚ) (s : GameState) :
    (particleUpdate dt s).gameOver = s.gameOver := by
  rfl

@[simp] theorem particleUpdate_shakeTimer (dt : ℚ) (s : GameState) :
    (particleUpdate dt s).shakeTimer = s.shakeTimer := by
  rfl

@[simp] theorem particleUpdate_shakeStrength (dt : ℚ) (s : GameState) :
    (particleUpdate dt s).shakeStrength = s.shakeStrength := by
  rfl

@[simp] theorem particleUpdate_ghosts (dt : ℚ) (s : GameState) :
    (particleUpdate dt s).ghosts = s.ghosts := by
  rfl

@[simp] theorem particleUpdate_stars (dt : ℚ) (s : GameState) :
    (particleUpdate dt s).stars = s.stars := by
  rfl

@[simp] theorem starUpdate_playerX (env : FrameEnv) (s : GameState) :
    (starUpdate env s).playerX = s.playerX := by
  rfl

@[simp] theorem starUpdate_bulletActive (env : FrameEnv) (s : GameState) :
    (starUpdate env s).bulletActive = s.bulletActive := by
  rfl

@[simp] theorem starUpdate_bulletX (env : FrameEnv) (s : GameState) :
    (starUpdate env s).bulletX = s.bulletX := by
  rfl

@[simp] theorem starUpdate_bulletY (env : FrameEnv) (s : GameState) :
    (starUpdate env s).bulletY = s.bulletY := by
  rfl

@[simp] theorem starUpdate_shootTimer (env : FrameEnv) (s : GameState) :
    (starUpdate env s).shootTimer = s.shootTimer := by
  rfl

@[simp] theorem starUpdate_score (env : FrameEnv) (s : GameState) :
    (starUpdate env s).score = s.score := by
  rfl

@[simp] theorem starUpdate_lives (env : FrameEnv) (s : GameState) :
    (starUpdate env s).lives = s.lives := by
  rfl

@[simp] theorem starUpdate_gameOver (env : FrameEnv) (s : GameState) :
    (starUpdate env s).gameOver = s.gameOver := by
  rfl

@[simp] theorem starUpdate_shakeTimer (env : FrameEnv) (s : GameState) :
    (starUpdate env s).shakeTimer = s.shakeTimer := by
  rfl

@[simp] theorem starUpdate_shakeStrength (env : FrameEnv) (s : GameState) :
    (starUpdate env s).shakeStrength = s.shakeStrength := by
  rfl

@[simp] theorem starUpdate_ghosts (env : FrameEnv) (s : GameState) :
    (starUpdate env s).ghosts = s.ghosts := by
  rfl

@[simp] theorem starUpdate_particles (env : FrameEnv) (s : GameState) :
    (starUpdate env s).particles = s.particles := by
  rfl

@[simp] theorem processInput_score (env : FrameEnv) (s : GameState) :
    (processInput env s).score = s.score := by
  unfold processInput; dsimp only; split <;> rfl

@[simp] theorem processInput_lives (env : FrameEnv) (s : GameState) :
    (processInput env s).lives = s.lives := by
  unfold processInput; dsimp only; split <;> rfl

@[simp] theorem processInput_gameOver (env : FrameEnv) (s : GameState) :
    (processInput env s).gameOver = s.gameOver := by
  unfold processInput; dsimp only; split <;> rfl

@[simp] theorem processInput_ghosts (env : FrameEnv) (s : GameState) :
    (processInput env s).ghosts = s.ghosts := by
  unfold processInput; dsimp only; split <;> rfl

@[simp] theorem processInput_particles (env : FrameEnv) (s : GameState) :
    (processInput env s).particles = s.particles := by
  unfold processInput; dsimp only; split <;> rfl

@[simp] theorem processInput_stars (env : FrameEnv) (s : GameState) :
    (processInput env s).stars = s.stars := by
  unfold processInput; dsimp only; split <;> rfl

@[simp] theorem processInput_shakeTimer (env : FrameEnv) (s : GameState) :
    (processInput env s).shakeTimer = s.shakeTimer := by
  unfold processInput; dsimp only; split <;> rfl

@[simp] theorem processInput_shakeStrength (env : FrameEnv) (s : GameState) :
    (processInput env s).shakeStrength = s.shakeStrength := by
  unfold processInput; dsimp only; split <;> rfl

@[simp] theorem resetGame_bulletX (rs : ℕ → StarInit) (rw : ℕ → GhostRand) (s : GameState) :
    (resetGame rs rw s).bulletX = s.bulletX := by
  rfl

@[simp] theorem resetGame_bulletY (rs : ℕ → StarInit) (rw : ℕ → GhostRand) (s : GameState) :
    (resetGame rs rw s).bulletY = s.bulletY := by
  rfl

@[simp] theorem resetGame_shakeTimer (rs : ℕ → StarInit) (rw : ℕ → GhostRand) (s : GameState) :
    (resetGame rs rw s).shakeTimer = s.shakeTimer := by
  rfl

@[simp] theorem resetGame_shakeStrength (rs : ℕ → StarInit) (rw : ℕ → GhostRand) (s : GameState) :
    (resetGame rs rw s).shakeStrength = s.shakeStrength := by
  rfl

@[simp] theorem waveCheck_playerX (env : FrameEnv) (p : PassST) :
    (waveCheck env p).playerX = p.st.playerX := by
  unfold waveCheck; split <;> rfl

@[simp] theorem waveCheck_bulletActive (env : FrameEnv) (p : PassST) :
    (waveCheck env p).bulletActive = p.st.bulletActive := by
  unfold waveCheck; split <;> rfl

@[simp] theorem waveCheck_bulletX (env : FrameEnv) (p : PassST) :
    (waveCheck env p).bulletX = p.st.bulletX := by
  unfold waveCheck; split <;> rfl

@[simp] theorem waveCheck_bulletY (env : FrameEnv) (p : PassST) :
    (waveCheck env p).bulletY = p.st.bulletY := by
  unfold waveCheck; split <;> rfl

@[simp] theorem waveCheck_shootTimer (env : FrameEnv) (p : PassST) :
    (waveCheck env p).shootTimer = p.st.shootTimer := by
  unfold waveCheck; split <;> rfl

@[simp] theorem waveCheck_score (env : FrameEnv) (p : PassST) :
    (waveCheck env p).score = p.st.score := by
  unfold waveCheck; split <;> rfl

@[simp] theorem waveCheck_lives (env : FrameEnv) (p : PassST) :
    (waveCheck env p).lives = p.st.lives := by
  unfold waveCheck; split <;> rfl

@[simp] theorem waveCheck_gameOver (env : FrameEnv) (p : PassST) :
    (waveCheck env p).gameOver = p.st.gameOver := by
  unfold waveCheck; split <;> rfl

@[simp] theorem waveCheck_shakeTimer (env : FrameEnv) (p : PassST) :
    (waveCheck env p).shakeTimer = p.st.shakeTimer := by
  unfold waveCheck; split <;> rfl

@[simp] theorem waveCheck_shakeStrength (env : FrameEnv) (p : PassST) :
    (waveCheck env p).shakeStrength = p.st.shakeStrength := by
  unfold waveCheck; split <;> rfl

@[simp] theorem waveCheck_particles (env : FrameEnv) (p : PassST) :
    (waveCheck env p).particles = p.st.particles := by
  unfold waveCheck; split <;> rfl

@[simp] theorem waveCheck_stars (env : FrameEnv) (p : PassST) :
    (waveCheck env p).stars = p.st.stars := by
  unfold waveCheck; split <;> rfl

@[simp] theorem resetGame_eqPlayerX (rs : ℕ → StarInit) (rw : ℕ → GhostRand)
    (s : GameState) : (resetGame rs rw s).playerX = 0 := rfl

@[simp] theorem resetGame_gameOver (rs : ℕ → StarInit) (rw : ℕ → GhostRand)
    (s : GameState) : (resetGame rs rw s).gameOver = false := rfl

theorem foldl_preserves {α β : Type _} (P : β → Prop) (f : β → α → β)
    (hf : ∀ b a, P b → P (f b a)) :
    ∀ (l : List α) (b : β), P b → P (l.foldl f b) := by
  intro l
  induction l with
  | nil => intro b hb; exact hb
  | cons a t ih => intro b hb; exact ih _ (hf _ _ hb)

theorem ghostStep_skip (dt bob : ℚ) (pr : ℕ → PartRand) (i : ℕ) (p : PassST)
    (h : ∀ g ∈ p.st.ghosts[i]?.toList, g.alive = false) :
    ghostStep dt bob pr i p = p := by
  unfold ghostStep
  rcases hg : p.st.ghosts[i]? with _ | g0
  · rfl
  · have : g0.alive = false := h g0 (by simp [hg])
    simp [this]

@[simp] theorem baselinePhase_playerX (g : Ghost) (p : PassST) :
    (baselinePhase g p).2.st.playerX = p.st.playerX := by
  unfold baselinePhase lifeLossShake; split <;> rfl

@[simp] theorem baselinePhase_bulletActive (g : Ghost) (p : PassST) :
    (baselinePhase g p).2.st.bulletActive = p.st.bulletActive := by
  unfold baselinePhase lifeLossShake; split <;> rfl

@[simp] theorem baselinePhase_bulletX (g : Ghost) (p : PassST) :
    (baselinePhase g p).2.st.bulletX = p.st.bulletX := by
  unfold baselinePhase lifeLossShake; split <;> rfl

@[simp] theorem baselinePhase_bulletY (g : Ghost) (p : PassST) :
    (baselinePhase g p).2.st.bulletY = p.st.bulletY := by
  unfold baselinePhase lifeLossShake; split <;> rfl

@[simp] theorem baselinePhase_shootTimer (g : Ghost) (p : PassST) :
    (baselinePhase g p).2.st.shootTimer = p.st.shootTimer := by
  unfold baselinePhase lifeLossShake; split <;> rfl

@[simp] theorem baselinePhase_score (g : Ghost) (p : PassST) :
    (baselinePhase g p).2.st.score = p.st.score := by
  unfold baselinePhase lifeLossShake; split <;> rfl

@[simp] theorem baselinePhase_ghosts (g : Ghost) (p : PassST) :
    (baselinePhase g p).2.st.ghosts = p.st.ghosts := by
  unfold baselinePhase lifeLossShake; split <;> rfl

@[simp] theorem baselinePhase_particles (g : Ghost) (p : PassST) :
    (baselinePhase g p).2.st.particles = p.st.particles := by
  unfold baselinePhase lifeLossShake; split <;> rfl

@[simp] theorem baselinePhase_stars (g : Ghost) (p : PassST) :
    (baselinePhase g p).2.st.stars = p.st.stars := by
  unfold baselinePhase lifeLossShake; split <;> rfl

@[simp] theorem baselinePhase_ac (g : Ghost) (p : PassST) :
    (baselinePhase g p).2.ac = p.ac := by
  unfold baselinePhase lifeLossShake; split <;> rfl

@[simp] theorem killPhase_playerX (pr : ℕ → PartRand) (i : ℕ) (g : Ghost) (s : GameState) :
    (killPhase pr i g s).playerX = s.playerX := by
  unfold killPhase killShake; split <;> rfl

@[simp] theorem killPhase_bulletX (pr : ℕ → PartRand) (i : ℕ) (g : Ghost) (s : GameState) :
    (killPhase pr i g s).bulletX = s.bulletX := by
  unfold killPhase killShake; split <;> rfl

@[simp] theorem killPhase_bulletY (pr : ℕ → PartRand) (i : ℕ) (g : Ghost) (s : GameState) :
    (killPhase pr i g s).bulletY = s.bulletY := by
  unfold killPhase killShake; split <;> rfl

@[simp] theorem killPhase_shootTimer (pr : ℕ → PartRand) (i : ℕ) (g : Ghost) (s : GameState) :
    (killPhase pr i g s).shootTimer = s.shootTimer := by
  unfold killPhase killShake; split <;> rfl

@[simp] theorem killPhase_lives (pr : ℕ → PartRand) (i : ℕ) (g : Ghost) (s : GameState) :
    (killPhase pr i g s).lives = s.lives := by
  unfold killPhase killShake; split <;> rfl

@[simp] theorem killPhase_gameOver (pr : ℕ → PartRand) (i : ℕ) (g : Ghost) (s : GameState) :
    (killPhase pr i g s).gameOver = s.gameOver := by
  unfold killPhase killShake; split <;> rfl

@[simp] theorem killPhase_stars (pr : ℕ → PartRand) (i : ℕ) (g : Ghost) (s : GameState) :
    (killPhase pr i g s).stars = s.stars := by
  unfold killPhase killShake; split <;> rfl

@[simp] theorem killPhase_ghosts_length (pr : ℕ → PartRand) (i : ℕ) (g : Ghost) (s : GameState) :
    (killPhase pr i g s).ghosts.length = s.ghosts.length := by
  unfold killPhase killShake; split <;> simp

theorem ghostStep_fixed (dt bob : ℚ) (pr : ℕ → PartRand) (i : ℕ) (p : PassST) :
    (ghostStep dt bob pr i p).st.playerX = p.st.playerX ∧
    (ghostStep dt bob pr i p).st.bulletX = p.st.bulletX ∧
    (ghostStep dt bob pr i p).st.bulletY = p.st.bulletY ∧
    (ghostStep dt bob pr i p).st.shootTimer = p.st.shootTimer ∧
    (ghostStep dt bob pr i p).st.stars = p.st.stars ∧
    (ghostStep dt bob pr i p).st.ghosts.length = p.st.ghosts.length := by
  unfold ghostStep
  rcases hg : p.st.ghosts[i]? with _ | g0
  · simp
  · by_cases ha : g0.alive = true
    · simp [ha]
    · simp [Bool.not_eq_true] at ha
      simp [ha]

theorem ghostPass_fixed (env : FrameEnv) (s : GameState) :
    (ghostPass env s).st.playerX = s.playerX ∧
    (ghostPass env s).st.bulletX = s.bulletX ∧
    (ghostPass env s).st.shootTimer = s.shootTimer ∧
    (ghostPass env s).st.stars = s.stars ∧
    (ghostPass env s).st.ghosts.length = s.ghosts.length := by
  unfold ghostPass
  apply foldl_preserves
    (P := fun p : PassST => p.st.playerX = s.playerX ∧ p.st.bulletX = s.bulletX ∧
      p.st.shootTimer = s.shootTimer ∧ p.st.stars = s.stars ∧
      p.st.ghosts.length = s.ghosts.length)
  · intro p i hp
    obtain ⟨h1, h2, h3, h4, h5, h6⟩ := ghostStep_fixed env.dt (env.bobs i) (env.prand i) i p
    exact ⟨h1.trans hp.1, h2.trans hp.2.1, h4.trans hp.2.2.1, h5.trans hp.2.2.2.1,
      h6.trans hp.2.2.2.2⟩
  · exact ⟨rfl, rfl, rfl, rfl, rfl⟩

/-! ## C6: the AABB overlap test -/

/-- C6: the bullet-ghost overlap test is the AABB formula
`|Δcenter|·2 < sum of extents` on both axes; it is symmetric in its two boxes;
the bullet at (0,0) with size (0.02,0.06) hits a ghost at (0.01,0.02) with
size (0.10,0.10) and misses one at (0.5,0.5). -/
theorem aabbHit_spec :
    (∀ ax ay aw ah bx bY bw bh : ℚ,
        aabbHit ax ay aw ah bx bY bw bh = true ↔
          (|ax - bx| * 2 < aw + bw ∧ |ay - bY| * 2 < ah + bh)) ∧
    (∀ ax ay aw ah bx bY bw bh : ℚ,
        aabbHit ax ay aw ah bx bY bw bh = aabbHit bx bY bw bh ax ay aw ah) ∧
    aabbHit 0 0 0.02 0.06 0.01 0.02 0.10 0.10 = true ∧
    aabbHit 0 0 0.02 0.06 0.5 0.5 0.10 0.10 = false := by
  refine ⟨?_, ?_, ?_, ?_⟩
  · intro ax ay aw ah bx bY bw bh
    simp [aabbHit]
  · intro ax ay aw ah bx bY bw bh
    simp only [aabbHit, abs_sub_comm ax bx, abs_sub_comm ay bY,
      add_comm aw bw, add_comm ah bh]
  · with_unfolding_all decide
  · with_unfolding_all decide

/-! ## C9: the player stays clamped on screen -/

theorem clamp_bounds (x1 : ℚ) :
    -1 + PLAYER_W * 0.5 ≤
        (if (if x1 + PLAYER_W * 0.5 > 1 then 1 - PLAYER_W * 0.5 else x1) - PLAYER_W * 0.5 < -1
          then -1 + PLAYER_W * 0.5
          else if x1 + PLAYER_W * 0.5 > 1 then 1 - PLAYER_W * 0.5 else x1) ∧
      (if (if x1 + PLAYER_W * 0.5 > 1 then 1 - PLAYER_W * 0.5 else x1) - PLAYER_W * 0.5 < -1
          then -1 + PLAYER_W * 0.5
          else if x1 + PLAYER_W * 0.5 > 1 then 1 - PLAYER_W * 0.5 else x1) ≤
        1 - PLAYER_W * 0.5 := by
  have hW : PLAYER_W * 0.5 = 0.09 := by norm_num [PLAYER_W]
  rw [hW]
  by_cases h1 : x1 + 0.09 > 1
  · rw [if_pos h1]
    by_cases h2 : (1 : ℚ) - 0.09 - 0.09 < -1
    · norm_num at h2
    · rw [if_neg h2]
      constructor <;> norm_num
  · rw [if_neg h1]
    by_cases h3 : x1 - 0.09 < -1
    · rw [if_pos h3]
      constructor <;> norm_num
    · rw [if_neg h3]
      push_neg at h1 h3
      constructor <;> linarith

theorem processInput_playerX (env : FrameEnv) (s : GameState) :
    -1 + PLAYER_W * 0.5 ≤ (processInput env s).playerX ∧
      (processInput env s).playerX ≤ 1 - PLAYER_W * 0.5 := by
  unfold processInput
  dsimp only
  split
  · exact clamp_bounds _
  · exact clamp_bounds _

theorem ghostPass_playerX (env : FrameEnv) (s : GameState) :
    (ghostPass env s).st.playerX = s.playerX :=
  (ghostPass_fixed env s).1

/-- C9: after every frame the player's horizontal position lies within
`[-1 + PLAYER_W/2, 1 - PLAYER_W/2] = [-0.91, 0.91]`, for every input
combination, every `deltaTime` and every starting state. -/
theorem player_stays_clamped (env : FrameEnv) (s : GameState) :
    (-1 + PLAYER_W * 0.5 ≤ (frameStep env s).playerX ∧
      (frameStep env s).playerX ≤ 1 - PLAYER_W * 0.5) ∧
    -1 + PLAYER_W * 0.5 = -0.91 ∧ (1 - PLAYER_W * 0.5 : ℚ) = 0.91 := by
  refine ⟨?_, by norm_num [PLAYER_W], by norm_num [PLAYER_W]⟩
  unfold frameStep frameStepC
  dsimp only
  rw [shakeDecay_playerX]
  set s1 := processInput env { s with shootTimer := s.shootTimer + env.dt } with hs1
  by_cases hr : (env.keyRestart && s1.gameOver) = true
  · rw [if_pos hr,
      if_neg (by simp : ¬((resetGame env.resetStars env.resetWave s1).gameOver = true))]
    dsimp only
    rw [starUpdate_playerX, particleUpdate_playerX, waveCheck_playerX, ghostPass_playerX,
        bulletUpdate_playerX, resetGame_eqPlayerX]
    norm_num [PLAYER_W]
  · rw [if_neg hr]
    by_cases hg : s1.gameOver = true
    · rw [if_pos hg]
      dsimp only
      rw [hs1]
      exact processInput_playerX env _
    · rw [if_neg hg]
      dsimp only
      rw [starUpdate_playerX, particleUpdate_playerX, waveCheck_playerX, ghostPass_playerX,
          bulletUpdate_playerX, hs1]
      exact processInput_playerX env _

/-! ## C5: wall bounce -/

theorem abs_moveGhost_vx (dt sinv : ℚ) (g : Ghost) :
    |(moveGhost dt sinv g).vx| = |g.vx| := by
  unfold moveGhost
  dsimp only
  split
  · dsimp only
    rw [abs_neg, abs_abs]
  · split
    · dsimp only
      rw [abs_abs]
    · rfl

/-- C5: a living ghost that crosses a horizontal bound during a step is
snapped exactly to that bound (`±(1 - GHOST_W/2) = ±0.95`), its velocity sign
strictly flips, and its vertical position drops by exactly
`GHOST_DROP = 0.04`.  The oracle `sinv` stands for the bob factor
`sin(timeNow*2 + phase)`, hence `|sinv| ≤ 1`; the speed bound `0.12 < |vx|`
holds in every reachable state (see the C10 theorem), and `|x| ≤ 0.95` says
the ghost starts the step inside the bounds. -/
theorem bounce_spec (dt sinv : ℚ) (g : Ghost) (hdt : 0 < dt) (hsv : |sinv| ≤ 1)
    (hvx : 0.12 < |g.vx|) (hx : |g.x| ≤ 1 - GHOST_W * 0.5) :
    (bobbedX dt sinv g + GHOST_W * 0.5 > 1 →
      (moveGhost dt sinv g).x = 1 - GHOST_W * 0.5 ∧ 0 < g.vx ∧
      (moveGhost dt sinv g).vx < 0 ∧
      (moveGhost dt sinv g).y = g.y - GHOST_DROP) ∧
    (bobbedX dt sinv g - GHOST_W * 0.5 < -1 →
      (moveGhost dt sinv g).x = -1 + GHOST_W * 0.5 ∧ g.vx < 0 ∧
      0 < (moveGhost dt sinv g).vx ∧
      (moveGhost dt sinv g).y = g.y - GHOST_DROP) ∧
    GHOST_DROP = 0.04 ∧ 1 - GHOST_W * 0.5 = 0.95 := by
  obtain ⟨hsv1, hsv2⟩ := abs_le.mp hsv
  obtain ⟨hx1, hx2⟩ := abs_le.mp hx
  have hrw : bobbedX dt sinv g = g.x + (g.vx + sinv * 0.12) * dt := by
    unfold bobbedX; ring
  refine ⟨?_, ?_, by norm_num [GHOST_DROP], by norm_num [GHOST_W]⟩
  · intro hcond
    have hG : GHOST_W * 0.5 = (0.05 : ℚ) := by norm_num [GHOST_W]
    have hbx : 1 - GHOST_W * 0.5 < bobbedX dt sinv g := by
      rw [hG] at hcond ⊢
      linarith
    have hvpos : 0 < g.vx := by
      by_contra hneg
      push_neg at hneg
      rw [abs_of_nonpos hneg] at hvx
      have hsum : g.vx + sinv * 0.12 < 0 := by linarith
      have hml : (g.vx + sinv * 0.12) * dt < 0 := mul_neg_of_neg_of_pos hsum hdt
      rw [hrw] at hbx
      linarith
    have habs : |g.vx| = g.vx := abs_of_pos hvpos
    unfold moveGhost
    dsimp only
    rw [if_pos hcond]
    refine ⟨rfl, hvpos, ?_, rfl⟩
    dsimp only
    rw [habs]
    linarith
  · intro hcond
    have hG : GHOST_W * 0.5 = (0.05 : ℚ) := by norm_num [GHOST_W]
    have hbx : bobbedX dt sinv g < -(1 - GHOST_W * 0.5) := by
      rw [hG] at hcond ⊢
      linarith
    have hvneg : g.vx < 0 := by
      by_contra hneg
      push_neg at hneg
      rw [abs_of_nonneg hneg] at hvx
      have hsum : 0 < g.vx + sinv * 0.12 := by linarith
      have hml : 0 < (g.vx + sinv * 0.12) * dt := mul_pos hsum hdt
      rw [hrw] at hbx
      linarith
    have hnotr : ¬ (bobbedX dt sinv g + GHOST_W * 0.5 > 1) := by
      intro hcon
      rw [hG] at hbx hcon
      linarith
    have habs : |g.vx| = -g.vx := abs_of_neg hvneg
    unfold moveGhost
    dsimp only
    rw [if_neg hnotr, if_pos hcond]
    refine ⟨rfl, hvneg, ?_, rfl⟩
    dsimp only
    rw [habs]
    linarith

/-- Witness for C5 at dt = 1, bob value 0, ghost at x = 0.9 moving right. -/
theorem bounce_spec_witness :
    (moveGhost 1 0 g5w).x = 1 - GHOST_W * 0.5 ∧ 0 < g5w.vx ∧
      (moveGhost 1 0 g5w).vx < 0 ∧ (moveGhost 1 0 g5w).y = g5w.y - GHOST_DROP := by
  have h := bounce_spec 1 0 g5w (by norm_num) (by with_unfolding_all decide)
    (by with_unfolding_all decide) (by with_unfolding_all decide)
  exact h.1 (by with_unfolding_all decide)

/-! ## C1 / C2: the baseline check and the bullet check -/

@[simp] theorem killShake_playerX (s : GameState) : (killShake s).playerX = s.playerX := rfl
@[simp] theorem killShake_bulletActive (s : GameState) :
    (killShake s).bulletActive = s.bulletActive := rfl
@[simp] theorem killShake_bulletX (s : GameState) : (killShake s).bulletX = s.bulletX := rfl
@[simp] theorem killShake_bulletY (s : GameState) : (killShake s).bulletY = s.bulletY := rfl
@[simp] theorem killShake_score (s : GameState) : (killShake s).score = s.score := rfl
@[simp] theorem killShake_lives (s : GameState) : (killShake s).lives = s.lives := rfl
@[simp] theorem killShake_gameOver (s : GameState) : (killShake s).gameOver = s.gameOver := rfl
@[simp] theorem killShake_ghosts (s : GameState) : (killShake s).ghosts = s.ghosts := rfl
@[simp] theorem killShake_particles (s : GameState) :
    (killShake s).particles = s.particles := rfl

@[simp] theorem baselinePhase_g_x (g : Ghost) (p : PassST) :
    (baselinePhase g p).1.x = g.x := by
  unfold baselinePhase lifeLossShake; split <;> rfl

@[simp] theorem baselinePhase_g_y (g : Ghost) (p : PassST) :
    (baselinePhase g p).1.y = g.y := by
  unfold baselinePhase lifeLossShake; split <;> rfl

@[simp] theorem baselinePhase_g_vx (g : Ghost) (p : PassST) :
    (baselinePhase g p).1.vx = g.vx := by
  unfold baselinePhase lifeLossShake; split <;> rfl

theorem killPhase_fire (pr : ℕ → PartRand) (i : ℕ) (g : Ghost) (s : GameState)
    (hc : (s.bulletActive &&
      aabbHit s.bulletX s.bulletY BULLET_W BULLET_H g.x g.y GHOST_W GHOST_H) = true) :
    killPhase pr i g s = killShake
      { s with ghosts := (s.ghosts.set i { g with alive := false }).map
                           (fun gg => { gg with vx := gg.vx * 1.035 }),
               bulletActive := false,
               score := s.score + 10,
               particles := s.particles ++
                 (List.range 24).map fun j => mkParticle g.x g.y (pr j) } := by
  unfold killPhase
  rw [if_pos hc]

theorem baselinePhase_fire (g : Ghost) (p : PassST)
    (hcond : g.y - GHOST_H * 0.5 ≤ PLAYER_Y + PLAYER_H * 0.5) :
    baselinePhase g p =
      ({ g with alive := false },
       { p with st := lifeLossShake
                  { p.st with lives := p.st.lives - 1,
                              gameOver := if p.st.lives - 1 ≤ 0 then true
                                          else p.st.gameOver },
                cr := p.cr + 1 }) := by
  unfold baselinePhase
  rw [if_pos hcond]

theorem index_lt_of_getElem? {l : List Ghost} {i : ℕ} {g : Ghost}
    (hg : l[i]? = some g) : i < l.length := by
  by_contra hc
  push_neg at hc
  rw [List.getElem?_eq_none hc] at hg
  exact Option.noConfusion hg

/-- C2: when the active bullet overlaps a living ghost (after that ghost's
per-frame motion), the kill adds exactly 10 to the score, deactivates the
bullet, appends exactly 24 particles all created with life = 1, and multiplies
every stored ghost's horizontal speed magnitude by 1.035. -/
theorem kill_effects (dt bob : ℚ) (pr : ℕ → PartRand) (i : ℕ) (p : PassST) (g0 : Ghost)
    (hg : p.st.ghosts[i]? = some g0) (ha : g0.alive = true)
    (hB : p.st.bulletActive = true)
    (hHit : aabbHit p.st.bulletX p.st.bulletY BULLET_W BULLET_H
      (moveGhost dt bob g0).x (moveGhost dt bob g0).y GHOST_W GHOST_H = true) :
    (ghostStep dt bob pr i p).st.score = p.st.score + 10 ∧
    (ghostStep dt bob pr i p).st.bulletActive = false ∧
    (ghostStep dt bob pr i p).st.particles.length = p.st.particles.length + 24 ∧
    (∀ q ∈ (ghostStep dt bob pr i p).st.particles.drop p.st.particles.length,
      q.life = 1) ∧
    (∀ j : ℕ, ((ghostStep dt bob pr i p).st.ghosts[j]?.map fun gg => |gg.vx|) =
      (p.st.ghosts[j]?.map fun gg => |gg.vx| * 1.035)) := by
  have hlen : i < p.st.ghosts.length := index_lt_of_getElem? hg
  have hgx := baselinePhase_g_x (moveGhost dt bob g0) { p with ac := p.ac + 1 }
  have hgy := baselinePhase_g_y (moveGhost dt bob g0) { p with ac := p.ac + 1 }
  have hgvx := baselinePhase_g_vx (moveGhost dt bob g0) { p with ac := p.ac + 1 }
  have hpba := baselinePhase_bulletActive (moveGhost dt bob g0) { p with ac := p.ac + 1 }
  have hpbx := baselinePhase_bulletX (moveGhost dt bob g0) { p with ac := p.ac + 1 }
  have hpby := baselinePhase_bulletY (moveGhost dt bob g0) { p with ac := p.ac + 1 }
  have hpsc := baselinePhase_score (moveGhost dt bob g0) { p with ac := p.ac + 1 }
  have hpgh := baselinePhase_ghosts (moveGhost dt bob g0) { p with ac := p.ac + 1 }
  have hppa := baselinePhase_particles (moveGhost dt bob g0) { p with ac := p.ac + 1 }
  unfold ghostStep
  rw [hg]
  dsimp only
  rw [if_pos ha]
  dsimp only
  rcases hbp : baselinePhase (moveGhost dt bob g0) { p with ac := p.ac + 1 } with ⟨g2, p2⟩
  rw [hbp] at hgx hgy hgvx hpba hpbx hpby hpsc hpgh hppa
  dsimp only at hgx hgy hgvx hpba hpbx hpby hpsc hpgh hppa
  have hc : (GameState.bulletActive { p2.st with ghosts := p2.st.ghosts.set i g2 } &&
      aabbHit (GameState.bulletX { p2.st with ghosts := p2.st.ghosts.set i g2 })
        (GameState.bulletY { p2.st with ghosts := p2.st.ghosts.set i g2 })
        BULLET_W BULLET_H g2.x g2.y GHOST_W GHOST_H) = true := by
    dsimp only
    rw [hpba, hpbx, hpby, hgx, hgy, hB, hHit]
    rfl
  rw [killPhase_fire _ _ _ _ hc]
  dsimp only
  refine ⟨?_, rfl, ?_, ?_, ?_⟩
  · rw [killShake_score]
    dsimp only
    rw [hpsc]
  · rw [hppa]
    simp [List.length_append, List.length_map, List.length_range]
  · rw [hppa]
    intro q hq
    rw [killShake_particles] at hq
    dsimp only at hq
    rw [List.drop_left, List.mem_map] at hq
    obtain ⟨j, hj, rfl⟩ := hq
    rfl
  · intro j
    rw [killShake_ghosts]
    dsimp only
    rw [List.set_set, hpgh, List.getElem?_map]
    by_cases hij : j = i
    · subst hij
      rw [List.getElem?_set_self (by simpa using hlen), hg]
      simp only [Option.map_some']
      have : |g2.vx * 1.035| = |g2.vx| * 1.035 := by
        rw [abs_mul]
        norm_num
      rw [this, hgvx, abs_moveGhost_vx]
    · rw [List.getElem?_set_ne (fun hcc => hij hcc.symm)]
      cases ho : p.st.ghosts[j]? with
      | none => rfl
      | some gg =>
        simp only [Option.map_some']
        have : |gg.vx * 1.035| = |gg.vx| * 1.035 := by
          rw [abs_mul]
          norm_num
        rw [this]

@[simp] theorem lifeLossShake_bulletActive (s : GameState) :
    (lifeLossShake s).bulletActive = s.bulletActive := rfl
@[simp] theorem lifeLossShake_bulletX (s : GameState) :
    (lifeLossShake s).bulletX = s.bulletX := rfl
@[simp] theorem lifeLossShake_bulletY (s : GameState) :
    (lifeLossShake s).bulletY = s.bulletY := rfl
@[simp] theorem lifeLossShake_score (s : GameState) :
    (lifeLossShake s).score = s.score := rfl
@[simp] theorem lifeLossShake_lives (s : GameState) :
    (lifeLossShake s).lives = s.lives := rfl
@[simp] theorem lifeLossShake_gameOver (s : GameState) :
    (lifeLossShake s).gameOver = s.gameOver := rfl
@[simp] theorem lifeLossShake_ghosts (s : GameState) :
    (lifeLossShake s).ghosts = s.ghosts := rfl
@[simp] theorem lifeLossShake_particles (s : GameState) :
    (lifeLossShake s).particles = s.particles := rfl

/-- C1 (amended): when one frame's motion leaves a living ghost satisfying
both the baseline condition and the bullet-overlap condition, the baseline
check fires first (the ghost is marked dead and a life is lost) and then the
bullet check fires as well, because it is gated only on the bullet being
active, not on the ghost still being alive: the bullet is deactivated and the
10-point score is awarded for the same ghost. -/
theorem baseline_and_bullet_both_fire (dt bob : ℚ) (pr : ℕ → PartRand) (i : ℕ)
    (p : PassST) (g0 : Ghost)
    (hg : p.st.ghosts[i]? = some g0) (ha : g0.alive = true)
    (hbase : (moveGhost dt bob g0).y - GHOST_H * 0.5 ≤ PLAYER_Y + PLAYER_H * 0.5)
    (hB : p.st.bulletActive = true)
    (hHit : aabbHit p.st.bulletX p.st.bulletY BULLET_W BULLET_H
      (moveGhost dt bob g0).x (moveGhost dt bob g0).y GHOST_W GHOST_H = true) :
    (ghostStep dt bob pr i p).st.lives = p.st.lives - 1 ∧
    ((ghostStep dt bob pr i p).st.ghosts[i]?.map Ghost.alive) = some false ∧
    (ghostStep dt bob pr i p).st.score = p.st.score + 10 ∧
    (ghostStep dt bob pr i p).st.bulletActive = false ∧
    (ghostStep dt bob pr i p).cr = p.cr + 1 := by
  have hlen : i < p.st.ghosts.length := index_lt_of_getElem? hg
  unfold ghostStep
  rw [hg]
  dsimp only
  rw [if_pos ha]
  dsimp only
  rw [baselinePhase_fire _ _ hbase]
  dsimp only
  rw [killPhase_fire _ _ _ _ ?hc]
  case hc =>
    simp only [lifeLossShake]
    rw [hB, hHit]
    rfl
  dsimp only
  refine ⟨?_, ?_, ?_, rfl, rfl⟩
  · rw [killShake_lives]
    simp only [lifeLossShake]
  · rw [killShake_ghosts]
    dsimp only
    simp only [lifeLossShake]
    rw [List.set_set, List.getElem?_map, List.getElem?_set_self hlen]
    rfl
  · rw [killShake_score]
    simp only [lifeLossShake]

/-- Witness for the amended C1 theorem at a concrete state: ghost at
y = -0.78 on the player row with the bullet on top of it. -/
theorem baseline_and_bullet_both_fire_witness :
    (ghostStep 0 0 (fun _ => prand0) 0 c1pass).st.lives = c1pass.st.lives - 1 ∧
    ((ghostStep 0 0 (fun _ => prand0) 0 c1pass).st.ghosts[0]?.map Ghost.alive) =
      some false ∧
    (ghostStep 0 0 (fun _ => prand0) 0 c1pass).st.score = c1pass.st.score + 10 ∧
    (ghostStep 0 0 (fun _ => prand0) 0 c1pass).st.bulletActive = false := by
  have h := baseline_and_bullet_both_fire 0 0 (fun _ => prand0) 0 c1pass c1ghost
    (by with_unfolding_all rfl) (by rfl) (by with_unfolding_all decide) (by rfl)
    (by with_unfolding_all decide)
  exact ⟨h.1, h.2.1, h.2.2.1, h.2.2.2.1⟩

/-- C1 counterexample: in `c1state` a single living ghost satisfies both the
baseline condition and the bullet-overlap condition in the same frame.  The
claim says the bullet check is then not applied: the bullet should stay
active and no score should be awarded.  The code disagrees: after the frame
the life is indeed lost (lives = 2), but the score was also awarded
(score = 10) and the bullet was consumed (bulletActive = false). -/
theorem baseline_and_bullet_cex :
    (frameStep env0 c1state).lives = 2 ∧
    (frameStep env0 c1state).score = 10 ∧
    (frameStep env0 c1state).bulletActive = false := by
  with_unfolding_all decide

/-- Witness for C2 at a concrete one-ghost state with the bullet on the
ghost. -/
theorem kill_effects_witness :
    (ghostStep 0 0 (fun _ => prand0) 0 c2pass).st.score = c2pass.st.score + 10 ∧
    (ghostStep 0 0 (fun _ => prand0) 0 c2pass).st.bulletActive = false ∧
    (ghostStep 0 0 (fun _ => prand0) 0 c2pass).st.particles.length =
      c2pass.st.particles.length + 24 ∧
    ((ghostStep 0 0 (fun _ => prand0) 0 c2pass).st.ghosts[0]?.map fun gg => |gg.vx|) =
      (c2pass.st.ghosts[0]?.map fun gg => |gg.vx| * (1.035 : ℚ)) := by
  have h := kill_effects 0 0 (fun _ => prand0) 0 c2pass c2ghost
    (by with_unfolding_all rfl) (by rfl) (by rfl) (by with_unfolding_all decide)
  exact ⟨h.1, h.2.1, h.2.2.1, h.2.2.2.2 0⟩

/-! ## C3: wave spawning -/

theorem spawnWave_length (n : ℕ) (sc : ℚ) (rnd : ℕ → GhostRand) :
    (spawnWave n sc rnd).length = min n MAX_GHOSTS := by
  unfold spawnWave
  rw [List.length_map, List.length_range]

theorem ghostPass_all_dead (env : FrameEnv) (s : GameState)
    (hdead : ∀ g ∈ s.ghosts, g.alive = false) :
    ghostPass env s = { st := s, ac := 0, cr := 0 } := by
  unfold ghostPass
  refine foldl_preserves (fun q : PassST => q = { st := s, ac := 0, cr := 0 }) _ ?_ _ _ rfl
  intro b i hb
  subst hb
  apply ghostStep_skip
  intro g hgmem
  apply hdead
  apply List.getElem?_mem
  simpa [Option.mem_toList] using hgmem

theorem waveCheck_fire (env : FrameEnv) (p : PassST)
    (hc : p.st.gameOver = false ∧ p.ac = 0) :
    waveCheck env p =
      { p.st with
        ghosts := spawnWave (nextWaveCount p.st.score) (nextWaveScale p.st.score)
                    env.waveRand } := by
  unfold waveCheck
  rw [if_pos hc]

/-- C3 (amended): the wave-clear check tests the count of ghosts that were
alive when their loop iteration began, so a fresh wave spawns in the first
frame that STARTS with every ghost dead (one frame after the last kill), not
in the frame whose pass ends with every ghost dead.  The spawned wave has
count `min(MAX_GHOSTS, 4 + score/20)` and speed scale `1 + score/100`;
score 0 gives count 4 and scale 1, score 60 gives count 7 and scale 1.6. -/
theorem wave_spawn_on_clear (env : FrameEnv) (s : GameState)
    (hdead : ∀ g ∈ s.ghosts, g.alive = false) (hgo : s.gameOver = false) :
    (frameStep env s).ghosts =
      spawnWave (min MAX_GHOSTS (4 + s.score / 20)) (1 + (s.score : ℚ) / 100)
        env.waveRand ∧
    (frameStep env s).ghosts.length = min MAX_GHOSTS (4 + s.score / 20) ∧
    (∀ g ∈ (frameStep env s).ghosts, g.alive = true) ∧
    nextWaveCount 0 = 4 ∧ nextWaveScale 0 = 1 ∧
    nextWaveCount 60 = 7 ∧ nextWaveScale 60 = 1.6 := by
  have hG : (frameStep env s).ghosts =
      spawnWave (min MAX_GHOSTS (4 + s.score / 20)) (1 + (s.score : ℚ) / 100)
        env.waveRand := by
    unfold frameStep frameStepC
    dsimp only
    set s0 : GameState := { s with shootTimer := s.shootTimer + env.dt } with hs0
    set s1 : GameState := processInput env s0 with hs1
    have h1 : s1.gameOver = false := by
      rw [hs1, processInput_gameOver]
      exact hgo
    have hrc : ¬ ((env.keyRestart && s1.gameOver) = true) := by
      rw [h1]
      simp
    rw [if_neg hrc, if_neg (by rw [h1]; simp : ¬ (s1.gameOver = true))]
    dsimp only
    have hpass : ghostPass env (bulletUpdate env.dt s1) =
        { st := bulletUpdate env.dt s1, ac := 0, cr := 0 } := by
      apply ghostPass_all_dead
      simp only [bulletUpdate_ghosts, hs1, processInput_ghosts]
      exact hdead
    rw [shakeDecay_ghosts, starUpdate_ghosts, particleUpdate_ghosts, hpass,
      waveCheck_fire _ _ ⟨by rw [bulletUpdate_gameOver]; exact h1, rfl⟩]
    dsimp only
    rw [bulletUpdate_score, hs1, processInput_score, hs0]
    dsimp only
    unfold nextWaveCount nextWaveScale
    rfl
  refine ⟨hG, ?_, ?_, by with_unfolding_all decide, by with_unfolding_all decide,
    by with_unfolding_all decide, by with_unfolding_all decide⟩
  · rw [hG, spawnWave_length]
    unfold MAX_GHOSTS
    omega
  · rw [hG]
    intro g hgm
    unfold spawnWave at hgm
    rw [List.mem_map] at hgm
    obtain ⟨j, hj, rfl⟩ := hgm
    rfl

/-- Witness for the amended C3 theorem: a cleared one-ghost wave respawns on
the next frame with 4 fresh ghosts. -/
theorem wave_spawn_on_clear_witness :
    (frameStep env0 c3state).ghosts =
      spawnWave (min MAX_GHOSTS (4 + c3state.score / 20))
        (1 + (c3state.score : ℚ) / 100) env0.waveRand ∧
    (frameStep env0 c3state).ghosts.length = 4 := by
  have h := wave_spawn_on_clear env0 c3state (by with_unfolding_all decide) rfl
  refine ⟨h.1, ?_⟩
  rw [h.2.1]
  with_unfolding_all decide

/-- C3 counterexample: in `c2state` the only ghost is alive and is killed by
the bullet during the pass, so after the per-ghost pass no ghost is alive and
the game is not over — yet no wave is spawned in that frame (the claim
demands a spawned wave, which would hold `min(8, 4+score/20) ≥ 4` living
ghosts; the store still holds exactly the one dead ghost). -/
theorem wave_not_spawned_cex :
    (frameStep env0 c2state).ghosts.length = 1 ∧
    (∀ g ∈ (frameStep env0 c2state).ghosts, g.alive = false) ∧
    (frameStep env0 c2state).gameOver = false ∧
    (frameStep env0 c2state).score = 10 := by
  with_unfolding_all decide

/-! ## C7: reset and the restart gate -/

/-- C7: from any state, `resetGame` leaves score 0, lives 3, the game-over
flag cleared, the player recentered at x = 0, the bullet inactive, the
particle store empty, and exactly 6 ghosts, all alive; and a frame whose
restart key is pressed behaves exactly like one without it whenever the
game-over flag is not set. -/
theorem reset_spec :
    (∀ (rs : ℕ → StarInit) (rw : ℕ → GhostRand) (s : GameState),
      (resetGame rs rw s).score = 0 ∧ (resetGame rs rw s).lives = 3 ∧
      (resetGame rs rw s).gameOver = false ∧ (resetGame rs rw s).playerX = 0 ∧
      (resetGame rs rw s).bulletActive = false ∧
      (resetGame rs rw s).particles = [] ∧
      (resetGame rs rw s).ghosts.length = 6 ∧
      ∀ g ∈ (resetGame rs rw s).ghosts, g.alive = true) ∧
    (∀ (env : FrameEnv) (s : GameState), s.gameOver = false →
      frameStep env s = frameStep { env with keyRestart := false } s) := by
  constructor
  · intro rs rw s
    refine ⟨rfl, rfl, rfl, rfl, rfl, rfl, ?_, ?_⟩
    · show (spawnWave 6 1 rw).length = 6
      rw [spawnWave_length]
      decide
    · intro g hgm
      have hgm' : g ∈ spawnWave 6 1 rw := hgm
      unfold spawnWave at hgm'
      rw [List.mem_map] at hgm'
      obtain ⟨j, hj, rfl⟩ := hgm'
      rfl
  · intro env s hgo
    have hgo1 : (processInput env { s with shootTimer := s.shootTimer + env.dt }).gameOver
        = false := by
      rw [processInput_gameOver]
      exact hgo
    unfold frameStep frameStepC
    dsimp only
    rw [hgo1]
    simp only [Bool.and_false, Bool.false_and, Bool.false_eq_true, if_false]
    rfl

/-- Witness for C7: reset effects at a concrete state, and a concrete
non-game-over frame in which the restart key is ignored. -/
theorem reset_spec_witness :
    (resetGame sinit0f grand0f c1state).score = 0 ∧
    (resetGame sinit0f grand0f c1state).lives = 3 ∧
    (resetGame sinit0f grand0f c1state).ghosts.length = 6 ∧
    c2state.gameOver = false ∧
    frameStep { env0 with keyRestart := true } c2state =
      frameStep { { env0 with keyRestart := true } with keyRestart := false } c2state := by
  have h := reset_spec
  obtain ⟨h1, h2, h3, _, _, _, h7, _⟩ := h.1 sinit0f grand0f c1state
  exact ⟨h1, h2, h7, rfl, h.2 { env0 with keyRestart := true } c2state rfl⟩

/-! ## C8: shake never stacks additively -/

theorem killPhase_shake_le (pr : ℕ → PartRand) (i : ℕ) (g : Ghost) (s : GameState)
    (h1 : s.shakeTimer ≤ 0.25) (h2 : s.shakeStrength ≤ 0.025) :
    (killPhase pr i g s).shakeTimer ≤ 0.25 ∧
      (killPhase pr i g s).shakeStrength ≤ 0.025 := by
  unfold killPhase killShake
  split
  · dsimp only
    exact ⟨max_le h1 (by norm_num), max_le h2 (by norm_num)⟩
  · exact ⟨h1, h2⟩

theorem baselinePhase_shake_le (g : Ghost) (p : PassST)
    (h1 : p.st.shakeTimer ≤ 0.25) (h2 : p.st.shakeStrength ≤ 0.025) :
    (baselinePhase g p).2.st.shakeTimer ≤ 0.25 ∧
      (baselinePhase g p).2.st.shakeStrength ≤ 0.025 := by
  unfold baselinePhase lifeLossShake
  split
  · dsimp only
    constructor <;> norm_num
  · exact ⟨h1, h2⟩

theorem ghostStep_shake_le (dt bob : ℚ) (pr : ℕ → PartRand) (i : ℕ) (p : PassST)
    (h1 : p.st.shakeTimer ≤ 0.25) (h2 : p.st.shakeStrength ≤ 0.025) :
    (ghostStep dt bob pr i p).st.shakeTimer ≤ 0.25 ∧
      (ghostStep dt bob pr i p).st.shakeStrength ≤ 0.025 := by
  unfold ghostStep
  rcases hg : p.st.ghosts[i]? with _ | g0
  · exact ⟨h1, h2⟩
  · by_cases ha : g0.alive = true
    · simp only [ha, if_true]
      obtain ⟨hb1, hb2⟩ :=
        baselinePhase_shake_le (moveGhost dt bob g0) { p with ac := p.ac + 1 } h1 h2
      exact killPhase_shake_le _ _ _ _ hb1 hb2
    · simp only [Bool.not_eq_true] at ha
      simp only [ha, Bool.false_eq_true, if_false]
      exact ⟨h1, h2⟩

theorem ghostPass_shake_le (env : FrameEnv) (s : GameState)
    (h1 : s.shakeTimer ≤ 0.25) (h2 : s.shakeStrength ≤ 0.025) :
    (ghostPass env s).st.shakeTimer ≤ 0.25 ∧
      (ghostPass env s).st.shakeStrength ≤ 0.025 := by
  unfold ghostPass
  refine foldl_preserves
    (fun q : PassST => q.st.shakeTimer ≤ 0.25 ∧ q.st.shakeStrength ≤ 0.025)
    _ ?_ _ _ ⟨h1, h2⟩
  intro b i hb
  exact ghostStep_shake_le _ _ _ _ _ hb.1 hb.2

theorem shakeDecay_le (dt : ℚ) (s : GameState) (hdt : 0 ≤ dt)
    (h1 : s.shakeTimer ≤ 0.25) : (shakeDecay dt s).shakeTimer ≤ 0.25 := by
  unfold shakeDecay
  split
  · dsimp only
    split
    · norm_num
    · linarith
  · exact h1

theorem pipeline_shake_le (env : FrameEnv) (s2 : GameState) (hdt : 0 ≤ env.dt)
    (h1 : s2.shakeTimer ≤ 0.25) (h2 : s2.shakeStrength ≤ 0.025) :
    (shakeDecay env.dt (starUpdate env (particleUpdate env.dt (waveCheck env
      (ghostPass env (bulletUpdate env.dt s2)))))).shakeTimer ≤ 0.25 ∧
    (shakeDecay env.dt (starUpdate env (particleUpdate env.dt (waveCheck env
      (ghostPass env (bulletUpdate env.dt s2)))))).shakeStrength ≤ 0.025 := by
  have hb1 : (bulletUpdate env.dt s2).shakeTimer ≤ 0.25 := by
    rw [bulletUpdate_shakeTimer]; exact h1
  have hb2 : (bulletUpdate env.dt s2).shakeStrength ≤ 0.025 := by
    rw [bulletUpdate_shakeStrength]; exact h2
  obtain ⟨hg1, hg2⟩ := ghostPass_shake_le env (bulletUpdate env.dt s2) hb1 hb2
  constructor
  · apply shakeDecay_le _ _ hdt
    rw [starUpdate_shakeTimer, particleUpdate_shakeTimer, waveCheck_shakeTimer]
    exact hg1
  · rw [shakeDecay_shakeStrength, starUpdate_shakeStrength, particleUpdate_shakeStrength,
      waveCheck_shakeStrength]
    exact hg2

theorem frameStepC_shake_le (env : FrameEnv) (s : GameState) (c : ℕ) (hdt : 0 ≤ env.dt)
    (h1 : s.shakeTimer ≤ 0.25) (h2 : s.shakeStrength ≤ 0.025) :
    (frameStepC env (s, c)).1.shakeTimer ≤ 0.25 ∧
      (frameStepC env (s, c)).1.shakeStrength ≤ 0.025 := by
  unfold frameStepC
  dsimp only
  set s1 : GameState := processInput env { s with shootTimer := s.shootTimer + env.dt }
    with hs1
  have hps1 : s1.shakeTimer ≤ 0.25 := by
    rw [hs1, processInput_shakeTimer]; exact h1
  have hps2 : s1.shakeStrength ≤ 0.025 := by
    rw [hs1, processInput_shakeStrength]; exact h2
  by_cases hr : (env.keyRestart && s1.gameOver) = true
  · rw [if_pos hr,
      if_neg (by simp : ¬((resetGame env.resetStars env.resetWave s1).gameOver = true))]
    dsimp only
    refine pipeline_shake_le env _ hdt ?_ ?_
    · rw [resetGame_shakeTimer]; exact hps1
    · rw [resetGame_shakeStrength]; exact hps2
  · rw [if_neg hr]
    by_cases hg : s1.gameOver = true
    · rw [if_pos hg]
      dsimp only
      exact ⟨shakeDecay_le _ _ hdt hps1, by rw [shakeDecay_shakeStrength]; exact hps2⟩
    · rw [if_neg hg]
      dsimp only
      exact pipeline_shake_le env _ hdt hps1 hps2

/-- C8: each shake trigger takes the pointwise maximum of the current shake
state and the event's fixed constants (the life-loss assignment of 0.25/0.025
coincides with that maximum on every state satisfying the bound invariant),
and consequently in every reachable state the shake timer never exceeds 0.25
and the shake strength never exceeds 0.025. -/
theorem shake_max_spec :
    (∀ s : GameState, s.shakeTimer ≤ 0.25 → s.shakeStrength ≤ 0.025 →
      (lifeLossShake s).shakeTimer = max s.shakeTimer 0.25 ∧
      (lifeLossShake s).shakeStrength = max s.shakeStrength 0.025 ∧
      (killShake s).shakeTimer = max s.shakeTimer 0.15 ∧
      (killShake s).shakeStrength = max s.shakeStrength 0.015) ∧
    (∀ s : GameState, Reachable s →
      s.shakeTimer ≤ 0.25 ∧ s.shakeStrength ≤ 0.025) := by
  constructor
  · intro s h1 h2
    refine ⟨?_, ?_, rfl, rfl⟩
    · show (0.25 : ℚ) = max s.shakeTimer 0.25
      rw [max_eq_right h1]
    · show (0.025 : ℚ) = max s.shakeStrength 0.025
      rw [max_eq_right h2]
  · intro s hs
    induction hs with
    | start rs rw =>
      constructor
      · rw [resetGame_shakeTimer]
        with_unfolding_all decide
      · rw [resetGame_shakeStrength]
        with_unfolding_all decide
    | frame env s' hdt hsR ih =>
      unfold frameStep
      exact frameStepC_shake_le env s' 0 hdt ih.1 ih.2

/-- Witness for C8: the max form of the triggers at the initial state, and
the bound at a concrete reachable state. -/
theorem shake_max_spec_witness :
    (lifeLossShake initialState).shakeTimer = max initialState.shakeTimer 0.25 ∧
    (killShake initialState).shakeTimer = max initialState.shakeTimer 0.15 ∧
    (resetGame sinit0f grand0f initialState).shakeTimer ≤ 0.25 ∧
    (resetGame sinit0f grand0f initialState).shakeStrength ≤ 0.025 := by
  have h := shake_max_spec
  obtain ⟨ha, _, hc, _⟩ := h.1 initialState (by with_unfolding_all decide)
    (by with_unfolding_all decide)
  obtain ⟨hd, he⟩ := h.2 _ (Reachable.start sinit0f grand0f)
  exact ⟨ha, hc, hd, he⟩

/-! ## C10: ghost speed never drops below the spawn minimum -/

theorem frand_lower (a b : ℚ) (r : ℕ) (h : a ≤ b) : a ≤ frand a b r := by
  unfold frand
  have hc : (0:ℚ) ≤ ((r % 10000 : ℕ) : ℚ) := Nat.cast_nonneg _
  have hnn : (0:ℚ) ≤ (b - a) * ((r % 10000 : ℕ) : ℚ) / 10000 :=
    div_nonneg (mul_nonneg (by linarith) hc) (by norm_num)
  linarith

theorem mkGhost_speed (scale : ℚ) (r : GhostRand) (hs : 1 ≤ scale) :
    GHOST_SPEED_MIN ≤ |(mkGhost scale r).vx| := by
  have hf : GHOST_SPEED_MIN ≤ frand GHOST_SPEED_MIN GHOST_SPEED_MAX r.rsp :=
    frand_lower _ _ _ (by norm_num [GHOST_SPEED_MIN, GHOST_SPEED_MAX])
  have hmin : (0:ℚ) < GHOST_SPEED_MIN := by norm_num [GHOST_SPEED_MIN]
  have hsp : GHOST_SPEED_MIN ≤ frand GHOST_SPEED_MIN GHOST_SPEED_MAX r.rsp * scale := by
    calc GHOST_SPEED_MIN = GHOST_SPEED_MIN * 1 := by ring
    _ ≤ frand GHOST_SPEED_MIN GHOST_SPEED_MAX r.rsp * scale :=
        mul_le_mul hf hs (by norm_num) (by linarith)
  unfold mkGhost
  dsimp only
  split
  · rw [abs_neg, abs_of_nonneg (by linarith)]
    exact hsp
  · rw [abs_of_nonneg (by linarith)]
    exact hsp

theorem spawnWave_speed (n : ℕ) (scale : ℚ) (rnd : ℕ → GhostRand) (hs : 1 ≤ scale) :
    ∀ g ∈ spawnWave n scale rnd, GHOST_SPEED_MIN ≤ |g.vx| := by
  intro g hm
  unfold spawnWave at hm
  rw [List.mem_map] at hm
  obtain ⟨j, hj, rfl⟩ := hm
  exact mkGhost_speed _ _ hs

theorem killPhase_speed (pr : ℕ → PartRand) (i : ℕ) (g : Ghost) (s : GameState)
    (hgv : GHOST_SPEED_MIN ≤ |g.vx|)
    (h : ∀ gg ∈ s.ghosts, GHOST_SPEED_MIN ≤ |gg.vx|) :
    ∀ gg ∈ (killPhase pr i g s).ghosts, GHOST_SPEED_MIN ≤ |gg.vx| := by
  unfold killPhase killShake
  split
  · dsimp only
    intro gg hm
    rw [List.mem_map] at hm
    obtain ⟨gg0, hm0, rfl⟩ := hm
    dsimp only
    have habs : |gg0.vx * 1.035| = |gg0.vx| * 1.035 := by
      rw [abs_mul]
      norm_num
    have hb : GHOST_SPEED_MIN ≤ |gg0.vx| := by
      rcases List.mem_or_eq_of_mem_set hm0 with hmem | rfl
      · exact h _ hmem
      · exact hgv
    rw [habs]
    linarith [abs_nonneg gg0.vx]
  · exact h

theorem ghostStep_speed (dt bob : ℚ) (pr : ℕ → PartRand) (i : ℕ) (p : PassST)
    (h : ∀ g ∈ p.st.ghosts, GHOST_SPEED_MIN ≤ |g.vx|) :
    ∀ g ∈ (ghostStep dt bob pr i p).st.ghosts, GHOST_SPEED_MIN ≤ |g.vx| := by
  unfold ghostStep
  rcases hg : p.st.ghosts[i]? with _ | g0
  · exact h
  · by_cases ha : g0.alive = true
    · simp only [ha, if_true]
      have hg1 : GHOST_SPEED_MIN ≤
          |(baselinePhase (moveGhost dt bob g0) { p with ac := p.ac + 1 }).1.vx| := by
        rw [baselinePhase_g_vx, abs_moveGhost_vx]
        exact h g0 (List.getElem?_mem hg)
      refine killPhase_speed _ _ _ _ hg1 ?_
      intro gg hm
      dsimp only at hm
      rw [baselinePhase_ghosts] at hm
      rcases List.mem_or_eq_of_mem_set hm with hmem | rfl
      · exact h _ hmem
      · exact hg1
    · simp only [Bool.not_eq_true] at ha
      simp only [ha, Bool.false_eq_true, if_false]
      exact h

theorem ghostPass_speed (env : FrameEnv) (s : GameState)
    (h : ∀ g ∈ s.ghosts, GHOST_SPEED_MIN ≤ |g.vx|) :
    ∀ g ∈ (ghostPass env s).st.ghosts, GHOST_SPEED_MIN ≤ |g.vx| := by
  unfold ghostPass
  refine foldl_preserves
    (fun q : PassST => ∀ g ∈ q.st.ghosts, GHOST_SPEED_MIN ≤ |g.vx|) _ ?_ _ _ h
  intro b i hb
  exact ghostStep_speed _ _ _ _ _ hb

theorem waveCheck_speed (env : FrameEnv) (p : PassST)
    (h : ∀ g ∈ p.st.ghosts, GHOST_SPEED_MIN ≤ |g.vx|) :
    ∀ g ∈ (waveCheck env p).ghosts, GHOST_SPEED_MIN ≤ |g.vx| := by
  unfold waveCheck
  split
  · dsimp only
    apply spawnWave_speed
    unfold nextWaveScale
    have hnn : (0:ℚ) ≤ (p.st.score : ℚ) / 100 :=
      div_nonneg (Nat.cast_nonneg _) (by norm_num)
    linarith
  · exact h

theorem pipeline_speed (env : FrameEnv) (s2 : GameState)
    (h : ∀ g ∈ s2.ghosts, GHOST_SPEED_MIN ≤ |g.vx|) :
    ∀ g ∈ (shakeDecay env.dt (starUpdate env (particleUpdate env.dt (waveCheck env
      (ghostPass env (bulletUpdate env.dt s2)))))).ghosts,
      GHOST_SPEED_MIN ≤ |g.vx| := by
  intro g hm
  rw [shakeDecay_ghosts, starUpdate_ghosts, particleUpdate_ghosts] at hm
  refine waveCheck_speed env _ (ghostPass_speed env _ ?_) g hm
  intro gg hmm
  rw [bulletUpdate_ghosts] at hmm
  exact h _ hmm

theorem frameStepC_speed (env : FrameEnv) (s : GameState) (c : ℕ)
    (h : ∀ g ∈ s.ghosts, GHOST_SPEED_MIN ≤ |g.vx|) :
    ∀ g ∈ (frameStepC env (s, c)).1.ghosts, GHOST_SPEED_MIN ≤ |g.vx| := by
  unfold frameStepC
  dsimp only
  set s1 : GameState := processInput env { s with shootTimer := s.shootTimer + env.dt }
    with hs1
  have hps : ∀ g ∈ s1.ghosts, GHOST_SPEED_MIN ≤ |g.vx| := by
    intro g hm
    rw [hs1, processInput_ghosts] at hm
    exact h g hm
  by_cases hr : (env.keyRestart && s1.gameOver) = true
  · rw [if_pos hr,
      if_neg (by simp : ¬((resetGame env.resetStars env.resetWave s1).gameOver = true))]
    dsimp only
    apply pipeline_speed
    intro g hm
    exact spawnWave_speed 6 1 env.resetWave (le_refl 1) g hm
  · rw [if_neg hr]
    by_cases hg : s1.gameOver = true
    · rw [if_pos hg]
      dsimp only
      intro g hm
      rw [shakeDecay_ghosts] at hm
      exact hps g hm
    · rw [if_neg hg]
      dsimp only
      exact pipeline_speed env _ hps

/-- C10: in every reachable state every stored ghost's horizontal speed
magnitude is at least `GHOST_SPEED_MIN = 0.35` (spawning samples at least
0.35 times a scale that is at least 1, bounces only flip the sign, and the
per-kill ramp multiplies by 1.035 ≥ 1); hence the speed strictly exceeds the
bob amplitude 0.12 and the per-frame horizontal drift `bobbedX` always moves
in the direction of the ghost's velocity. -/
theorem ghost_speed_spec :
    ∀ s : GameState, Reachable s →
      (∀ g ∈ s.ghosts, GHOST_SPEED_MIN ≤ |g.vx|) ∧
      (∀ g ∈ s.ghosts, (0.12:ℚ) < |g.vx|) ∧
      (∀ g ∈ s.ghosts, ∀ dt sv : ℚ, 0 < dt → |sv| ≤ 1 →
        ((0 < g.vx → g.x < bobbedX dt sv g) ∧
         (g.vx < 0 → bobbedX dt sv g < g.x))) := by
  intro s hs
  have h35 : GHOST_SPEED_MIN = (0.35:ℚ) := rfl
  have hmain : ∀ g ∈ s.ghosts, GHOST_SPEED_MIN ≤ |g.vx| := by
    induction hs with
    | start rs rw =>
      intro g hm
      exact spawnWave_speed 6 1 rw (le_refl 1) g hm
    | frame env s' hdt hsR ih =>
      unfold frameStep
      exact frameStepC_speed env s' 0 ih
  refine ⟨hmain, ?_, ?_⟩
  · intro g hm
    have hg := hmain g hm
    rw [h35] at hg
    linarith
  · intro g hm dt sv hdt hsv
    have hg := hmain g hm
    rw [h35] at hg
    obtain ⟨hsv1, hsv2⟩ := abs_le.mp hsv
    have hrw : bobbedX dt sv g = g.x + (g.vx + sv * 0.12) * dt := by
      unfold bobbedX
      ring
    constructor
    · intro hv
      have habs : |g.vx| = g.vx := abs_of_pos hv
      rw [habs] at hg
      have hsum : 0 < g.vx + sv * 0.12 := by linarith
      have hml := mul_pos hsum hdt
      rw [hrw]
      linarith
    · intro hv
      have habs : |g.vx| = -g.vx := abs_of_neg hv
      rw [habs] at hg
      have hsum : g.vx + sv * 0.12 < 0 := by linarith
      have hml := mul_neg_of_neg_of_pos hsum hdt
      rw [hrw]
      linarith

/-- Witness for C10: a ghost of the initial wave, with its speed bound and a
leftward drift (its spawn direction draw is 0, so it moves left). -/
theorem ghost_speed_spec_witness :
    GHOST_SPEED_MIN ≤ |(mkGhost 1 grand0).vx| ∧
    (0.12:ℚ) < |(mkGhost 1 grand0).vx| ∧
    bobbedX 1 0 (mkGhost 1 grand0) < (mkGhost 1 grand0).x := by
  have h := ghost_speed_spec _ (Reachable.start sinit0f grand0f)
  have hmem : mkGhost 1 grand0 ∈ (resetGame sinit0f grand0f initialState).ghosts := by
    with_unfolding_all decide
  refine ⟨h.1 _ hmem, (h.2.1) _ hmem, ?_⟩
  exact (h.2.2 _ hmem 1 0 (by norm_num) (by with_unfolding_all decide)).2
    (by with_unfolding_all decide)

/-! ## C4: three baseline crossings end the game and freeze the world -/

theorem processInput_frozen (env : FrameEnv) (s : GameState) (hgo : s.gameOver = true) :
    (processInput env s).bulletActive = s.bulletActive ∧
    (processInput env s).bulletX = s.bulletX ∧
    (processInput env s).bulletY = s.bulletY := by
  unfold processInput
  dsimp only
  rw [hgo]
  simp only [Bool.not_true, Bool.false_and, Bool.false_eq_true, if_false]
  exact ⟨trivial, trivial, trivial⟩

theorem shakeDecay_timer (dt : ℚ) (s : GameState) :
    (shakeDecay dt s).shakeTimer =
      (if s.shakeTimer > 0 then
        (if s.shakeTimer - dt < 0 then 0 else s.shakeTimer - dt)
       else s.shakeTimer) := by
  unfold shakeDecay
  split <;> rfl

theorem frameStep_frozen (env : FrameEnv) (s : GameState)
    (hgo : s.gameOver = true) (hr : env.keyRestart = false) :
    (frameStep env s).ghosts = s.ghosts ∧
    (frameStep env s).particles = s.particles ∧
    (frameStep env s).stars = s.stars ∧
    (frameStep env s).bulletActive = s.bulletActive ∧
    (frameStep env s).bulletY = s.bulletY ∧
    (frameStep env s).gameOver = true ∧
    (frameStep env s).shakeTimer =
      (if s.shakeTimer > 0 then
        (if s.shakeTimer - env.dt < 0 then 0 else s.shakeTimer - env.dt)
       else s.shakeTimer) := by
  unfold frameStep frameStepC
  dsimp only
  set s1 : GameState := processInput env { s with shootTimer := s.shootTimer + env.dt }
    with hs1
  have hg1 : s1.gameOver = true := by
    rw [hs1, processInput_gameOver]
    exact hgo
  obtain ⟨hfa, hfx, hfy⟩ := processInput_frozen env
    { s with shootTimer := s.shootTimer + env.dt }
    (show GameState.gameOver { s with shootTimer := s.shootTimer + env.dt } = true from hgo)
  rw [hr]
  simp only [Bool.false_and, Bool.false_eq_true, if_false]
  rw [if_pos hg1]
  dsimp only
  refine ⟨?_, ?_, ?_, ?_, ?_, ?_, ?_⟩
  · rw [shakeDecay_ghosts, hs1, processInput_ghosts]
  · rw [shakeDecay_particles, hs1, processInput_particles]
  · rw [shakeDecay_stars, hs1, processInput_stars]
  · rw [shakeDecay_bulletActive, hs1]
    exact hfa
  · rw [shakeDecay_bulletY, hs1]
    exact hfy
  · rw [shakeDecay_gameOver]
    exact hg1
  · rw [shakeDecay_timer, hs1, processInput_shakeTimer]

theorem baselinePhase_inv (g : Ghost) (p : PassST) (L : ℤ)
    (h1 : p.st.lives = L - (p.cr : ℤ))
    (h2 : p.st.gameOver = true ↔ L ≤ (p.cr : ℤ)) :
    (baselinePhase g p).2.st.lives = L - ((baselinePhase g p).2.cr : ℤ) ∧
    ((baselinePhase g p).2.st.gameOver = true ↔ L ≤ ((baselinePhase g p).2.cr : ℤ)) := by
  unfold baselinePhase lifeLossShake
  split
  · dsimp only
    constructor
    · omega
    · by_cases hle : p.st.lives - 1 ≤ 0
      · rw [if_pos hle]
        constructor
        · intro _
          omega
        · intro _
          rfl
      · rw [if_neg hle]
        constructor
        · intro hcon
          exact absurd (h2.mp hcon) (by omega)
        · intro hcon
          exact absurd hcon (by omega)
  · exact ⟨h1, h2⟩

theorem ghostStep_inv (dt bob : ℚ) (pr : ℕ → PartRand) (i : ℕ) (p : PassST) (L : ℤ)
    (h1 : p.st.lives = L - (p.cr : ℤ))
    (h2 : p.st.gameOver = true ↔ L ≤ (p.cr : ℤ)) :
    (ghostStep dt bob pr i p).st.lives = L - ((ghostStep dt bob pr i p).cr : ℤ) ∧
    ((ghostStep dt bob pr i p).st.gameOver = true ↔
      L ≤ ((ghostStep dt bob pr i p).cr : ℤ)) := by
  unfold ghostStep
  rcases hg : p.st.ghosts[i]? with _ | g0
  · exact ⟨h1, h2⟩
  · by_cases ha : g0.alive = true
    · simp only [ha, if_true]
      have hbp := baselinePhase_inv (moveGhost dt bob g0) { p with ac := p.ac + 1 } L h1 h2
      constructor
      · rw [killPhase_lives]
        exact hbp.1
      · rw [killPhase_gameOver]
        exact hbp.2
    · simp only [Bool.not_eq_true] at ha
      simp only [ha, Bool.false_eq_true, if_false]
      exact ⟨h1, h2⟩

theorem ghostPass_inv (env : FrameEnv) (s : GameState) (L : ℤ) (hL : 0 < L)
    (h1 : s.lives = L) (h2 : s.gameOver = false) :
    (ghostPass env s).st.lives = L - ((ghostPass env s).cr : ℤ) ∧
    ((ghostPass env s).st.gameOver = true ↔ L ≤ ((ghostPass env s).cr : ℤ)) := by
  unfold ghostPass
  refine foldl_preserves
    (fun q : PassST => q.st.lives = L - (q.cr : ℤ) ∧
      (q.st.gameOver = true ↔ L ≤ (q.cr : ℤ)))
    _ ?_ _ _ ⟨by simpa using h1, ?_⟩
  · intro b i hb
    exact ghostStep_inv _ _ _ _ _ _ hb.1 hb.2
  · constructor
    · intro hcon
      dsimp only at hcon
      rw [h2] at hcon
      exact absurd hcon (by simp)
    · intro hcon
      dsimp only at hcon
      exact absurd hcon (by omega)

theorem frameStepC_lives (env : FrameEnv) (s : GameState) (c : ℕ)
    (hgo : s.gameOver = false) (hpos : 0 < s.lives) :
    ∃ k : ℕ, (frameStepC env (s, c)).2 = c + k ∧
      (frameStepC env (s, c)).1.lives = s.lives - (k : ℤ) ∧
      ((frameStepC env (s, c)).1.gameOver = true ↔ s.lives ≤ (k : ℤ)) := by
  unfold frameStepC
  dsimp only
  set s1 : GameState := processInput env { s with shootTimer := s.shootTimer + env.dt }
    with hs1
  have hg1 : s1.gameOver = false := by
    rw [hs1, processInput_gameOver]
    exact hgo
  have hrc : ¬ ((env.keyRestart && s1.gameOver) = true) := by
    rw [hg1]
    simp
  rw [if_neg hrc, if_neg (by rw [hg1]; simp : ¬ (s1.gameOver = true))]
  dsimp only
  set sB : GameState := bulletUpdate env.dt s1 with hsB
  have hbl : sB.lives = s.lives := by
    rw [hsB, bulletUpdate_lives, hs1, processInput_lives]
  have hbg : sB.gameOver = false := by
    rw [hsB, bulletUpdate_gameOver]
    exact hg1
  obtain ⟨hp1, hp2⟩ := ghostPass_inv env sB s.lives hpos hbl hbg
  refine ⟨(ghostPass env sB).cr, rfl, ?_, ?_⟩
  · rw [shakeDecay_lives, starUpdate_lives, particleUpdate_lives, waveCheck_lives]
    exact hp1
  · rw [shakeDecay_gameOver, starUpdate_gameOver, particleUpdate_gameOver,
      waveCheck_gameOver]
    exact hp2

theorem frameStepC_frozen_cnt (env : FrameEnv) (s : GameState) (c : ℕ)
    (hgo : s.gameOver = true) (hr : env.keyRestart = false) :
    (frameStepC env (s, c)).2 = c ∧ (frameStepC env (s, c)).1.lives = s.lives ∧
      (frameStepC env (s, c)).1.gameOver = s.gameOver := by
  unfold frameStepC
  dsimp only
  set s1 : GameState := processInput env { s with shootTimer := s.shootTimer + env.dt }
    with hs1
  have hg1 : s1.gameOver = true := by
    rw [hs1, processInput_gameOver]
    exact hgo
  rw [hr]
  simp only [Bool.false_and, Bool.false_eq_true, if_false]
  rw [if_pos hg1]
  dsimp only
  refine ⟨rfl, ?_, ?_⟩
  · rw [shakeDecay_lives, hs1, processInput_lives]
  · rw [shakeDecay_gameOver, hs1, processInput_gameOver, hgo]

theorem runC_inv (envs : List FrameEnv) :
    ∀ (s : GameState) (c : ℕ), (∀ e ∈ envs, e.keyRestart = false) →
      s.lives = 3 - (c : ℤ) → (s.gameOver = true ↔ 3 ≤ (c : ℤ)) →
      (runC envs (s, c)).1.lives = 3 - ((runC envs (s, c)).2 : ℤ) ∧
      ((runC envs (s, c)).1.gameOver = true ↔ 3 ≤ ((runC envs (s, c)).2 : ℤ)) := by
  induction envs with
  | nil =>
    intro s c _ h1 h2
    exact ⟨h1, h2⟩
  | cons e t ih =>
    intro s c hr h1 h2
    have hre : e.keyRestart = false := hr e (by simp)
    have hrt : ∀ e' ∈ t, e'.keyRestart = false := fun e' he' => hr e' (by simp [he'])
    unfold runC
    rw [List.foldl_cons]
    by_cases hgo : s.gameOver = true
    · obtain ⟨hc, hl, hg⟩ := frameStepC_frozen_cnt e s c hgo hre
      refine ih (frameStepC e (s, c)).1 (frameStepC e (s, c)).2 hrt ?_ ?_
      · rw [hl, hc, h1]
      · rw [hg, hc]
        exact h2
    · have hgof : s.gameOver = false := by
        cases hb : s.gameOver
        · rfl
        · exact absurd hb hgo
      have hpos : 0 < s.lives := by
        by_contra hnp
        push_neg at hnp
        exact hgo (h2.mpr (by omega))
      obtain ⟨k, hc, hl, hg⟩ := frameStepC_lives e s c hgof hpos
      refine ih (frameStepC e (s, c)).1 (frameStepC e (s, c)).2 hrt ?_ ?_
      · rw [hl, hc, h1]
        push_cast
        ring
      · rw [hg, hc, h1]
        push_cast
        omega

/-- C4: starting from lives = 3 with the game-over flag clear, along any
frame trace without restart input the flag is set exactly when the cumulative
count of baseline crossings has reached 3, and lives always equal
3 minus that count (so lives hit 0 exactly at the third crossing, when the
flag turns on); moreover any frame starting with the flag set leaves the
bullet, ghosts, particles and stars untouched, with only the shake timer
decaying toward zero. -/
theorem lives_gameover_spec (envs : List FrameEnv) (s0 : GameState)
    (hr : ∀ e ∈ envs, e.keyRestart = false)
    (hl : s0.lives = 3) (hg : s0.gameOver = false) :
    ((runC envs (s0, 0)).1.gameOver = true ↔ 3 ≤ (runC envs (s0, 0)).2) ∧
    (runC envs (s0, 0)).1.lives = 3 - ((runC envs (s0, 0)).2 : ℤ) ∧
    (∀ (env : FrameEnv) (s : GameState), s.gameOver = true → env.keyRestart = false →
      (frameStep env s).ghosts = s.ghosts ∧
      (frameStep env s).particles = s.particles ∧
      (frameStep env s).stars = s.stars ∧
      (frameStep env s).bulletActive = s.bulletActive ∧
      (frameStep env s).bulletY = s.bulletY ∧
      (frameStep env s).gameOver = true ∧
      (frameStep env s).shakeTimer =
        (if s.shakeTimer > 0 then
          (if s.shakeTimer - env.dt < 0 then 0 else s.shakeTimer - env.dt)
         else s.shakeTimer)) := by
  have hinit2 : s0.gameOver = true ↔ 3 ≤ ((0 : ℕ) : ℤ) := by
    constructor
    · intro hcon
      rw [hg] at hcon
      exact absurd hcon (by simp)
    · intro hcon
      exact absurd hcon (by omega)
  obtain ⟨hL, hG⟩ := runC_inv envs s0 0 hr (by simpa using hl) hinit2
  refine ⟨?_, hL, ?_⟩
  · constructor
    · intro hh
      have := hG.mp hh
      omega
    · intro hh
      exact hG.mpr (by omega)
  · intro env s hsg hsr
    exact frameStep_frozen env s hsg hsr

/-- Witness for C4: the empty trace from a fresh reset state (no crossings,
lives 3, flag off), plus the freezing fact applied to a concrete game-over
state. -/
theorem lives_gameover_spec_witness :
    ((runC [] (resetGame sinit0f grand0f initialState, 0)).1.gameOver = true ↔
      3 ≤ (runC [] (resetGame sinit0f grand0f initialState, 0)).2) ∧
    (runC [] (resetGame sinit0f grand0f initialState, 0)).1.lives =
      3 - ((runC [] (resetGame sinit0f grand0f initialState, 0)).2 : ℤ) := by
  have h := lives_gameover_spec [] (resetGame sinit0f grand0f initialState)
    (by intro e he; exact absurd he (by simp)) rfl rfl
  exact ⟨h.1, h.2.1⟩

end GhostBusters
